import Mathlib

/-!
Verification of the Outcome Forecasting & Uncertainty Engine of the
APOLLO governance-proposal system.

The development shallowly embeds the Python sources in Lean 4:

* `src/agents/outcome_forecaster.py`  — `forecast_outcomes`, `_apply_model`;
* `scripts/bench_moe_compare.py`      — `_n_effective`, `_moe_old`, `_moe_new`,
  `_confidence_from_moe`;
* `src/analysis/calibration.py`       — `apply_calibration`, `_clamp01`,
  `_interp_points`;
* `src/analysis/train_forecaster.py`  — `_prepare_features`, `train_model`;
* `src/analysis/prediction_evaluator.py` — `_normalise_columns`,
  `compare_predictions`.

Python floats are modelled as rationals (`ℚ`): the claims under study are
about exact formulas, clamps, control flow and exception behaviour, not about
rounding, so ideal arithmetic is the intended reading.  The transcendental
primitives `numpy.exp` and `x ** 0.5` have no rational counterpart and are
passed in as explicit function parameters (`fexp`, `fsqrt`); no claim depends
on their values beyond an algebraic property stated as a hypothesis where
needed.  Fallible Python code is embedded in the `Except String` monad: a
`.error` value marks an uncaught Python exception escaping to the caller.
-/

/-! ## A model of dynamically typed Python values -/

/-- Python runtime values as they occur in a forecaster `Context`:
`None`, booleans, ints, floats (as `ℚ`), strings, lists and string-keyed
dicts (as association lists; the dicts built in theorems below always have
distinct keys, matching Python dict semantics). -/
inductive PyVal where
| none : PyVal
| bool : Bool → PyVal
| int : ℤ → PyVal
| float : ℚ → PyVal
| str : String → PyVal
| list : List PyVal → PyVal
| dict : List (String × PyVal) → PyVal

/-- Python truthiness (`bool(v)`): `None`, `False`, zero, the empty string and
empty containers are falsy, everything else truthy. -/
def pyTruthy : PyVal → Bool
| .none => false
| .bool b => b
| .int n => if n = 0 then false else true
| .float q => if q = 0 then false else true
| .str s => if s = "" then false else true
| .list l => !l.isEmpty
| .dict d => !d.isEmpty

/-- Python `a or b`: returns `a` when `a` is truthy, else `b`. -/
def pyOr (a b : PyVal) : PyVal := if pyTruthy a then a else b

/-- Python `float(v)` coercion.  `None`, lists and dicts raise `TypeError`;
strings raise `ValueError`.  (Numeric string literals, which Python would
accept, are not modelled: no claim in this development involves a context
carrying a numeric string, and strings in the theorems below are always
non-numeric text, which Python rejects exactly as modelled here.) -/
def pyFloat : PyVal → Except String ℚ
| .bool b => .ok (if b then 1 else 0)
| .int n => .ok (n : ℚ)
| .float q => .ok q
| .none => .error "TypeError: float() argument is None"
| .str _ => .error "ValueError: could not convert string to float"
| .list _ => .error "TypeError: float() argument is a list"
| .dict _ => .error "TypeError: float() argument is a dict"

/-- Coerce every element of a list with `pyFloat`, propagating the first
exception (models the list comprehension `[float(v) for v in ...]`). -/
def pyFloatList : List PyVal → Except String (List ℚ)
| [] => .ok []
| v :: vs => do
  let q ← pyFloat v
  let qs ← pyFloatList vs
  pure (q :: qs)

/-- Simplified Python `str(v)` rendering.  It is total, like Python's `str`,
and agrees with Python on strings; the exact rendering of non-string values
is irrelevant to every claim (it is only ever fed to a word count). -/
def pyStr : PyVal → String
| .none => "None"
| .bool b => if b then "True" else "False"
| .int n => toString n
| .float q => toString q
| .str s => s
| .list _ => "[..]"
| .dict _ => "dict"

/-- ASCII whitespace test used by the Python `str.split()` / `str.strip()`
models below. -/
def isWs (c : Char) : Bool := c = ' ' ∨ c = '\t' ∨ c = '\n' ∨ c = '\r'

/-- Number of whitespace-separated words, i.e. `len(s.split())` in Python. -/
def wordCount (s : String) : ℕ :=
  ((s.data.splitOnP isWs).filter (· ≠ [])).length

/-- A forecaster `Context`: a Python dict with string keys. -/
def Ctx : Type := List (String × PyVal)

/-- Python `context.get(k)`: `None` both when the key is absent and when it is
bound to `None` (indistinguishable to `dict.get`, and to all code below). -/
def ctxGet (ctx : Ctx) (k : String) : PyVal := (List.lookup k ctx).getD .none

/-- Python `context.get(k, default)`. -/
def ctxGetD (ctx : Ctx) (k : String) (d : PyVal) : PyVal :=
  (List.lookup k ctx).getD d

/-- Lookup inside a nested dict value, `d.get(k)`. -/
def dGet (d : List (String × PyVal)) (k : String) : PyVal :=
  (List.lookup k d).getD .none

/-- Python `max(a, b)` on rationals, written with an explicit `if` so that it
evaluates inside the kernel. -/
def qmax (a b : ℚ) : ℚ := if a ≤ b then b else a

/-- Python `min(a, b)` on rationals. -/
def qmin (a b : ℚ) : ℚ := if a ≤ b then a else b

/-- Python `abs(a)` on rationals. -/
def qabs (a : ℚ) : ℚ := if a < 0 then -a else a

/-- Arithmetic mean of a list of rationals (`numpy.mean` / `_mean`);
`0` on the empty list, as in the benchmark script's `_mean`. -/
def listMean (xs : List ℚ) : ℚ := if xs.isEmpty then 0 else xs.sum / xs.length

/-- Population variance helper: mean of squared deviations. -/
def popVar (xs : List ℚ) : ℚ :=
  (xs.map (fun x => (x - listMean xs) * (x - listMean xs))).sum / xs.length

/-- Clamp to `[0, 1]`, i.e. Python `max(0.0, min(1.0, x))`. -/
def clamp01 (x : ℚ) : ℚ := qmax 0 (qmin 1 x)

/-! ## Embedding of `src/agents/outcome_forecaster.py` -/

/-- Modelled from the spec: the historical-statistics lookup
`referenda_updater.load_historical_rates` is called by the forecaster but is
not defined anywhere in the repository (its call site raises
`AttributeError`, caught by the forecaster; tests monkeypatch it with a dict
of floats).  Per the spec it is an external collaborator returning the
historical `approval_rate`, `turnout` and `turnout_trend`; each field is
optional, matching the forecaster's `stats.get(key, default)` access. -/
structure Hist where
  approval_rate : Option ℚ
  turnout : Option ℚ
  turnout_trend : Option ℚ

/-- A trained model as loaded from `models/referendum_model.json`:
`intercept` plus named `coefficients`.  A missing, unreadable or malformed
model file routes the forecaster to the heuristic path (its `_load_model`
returns `None` / `_apply_model` raises inside a `try`), which is modelled
below by passing `Option Model = none`. -/
structure Model where
  intercept : ℚ
  coefficients : List (String × ℚ)

/-- Embedding of `_apply_model` (outcome_forecaster.py lines 32-50):
`z = intercept + Σ coefficients.get(name, 0.0) * value` over the feature
dict, then the logistic `1 / (1 + exp(-z))`, with `exp` abstract. -/
def applyModel (fexp : ℚ → ℚ) (m : Model) (features : List (String × ℚ)) : ℚ :=
  let z := m.intercept +
    (features.map (fun nv => ((List.lookup nv.1 m.coefficients).getD 0) * nv.2)).sum
  1 / (1 + fexp (-z))

/-- Sentiment extraction chain (outcome_forecaster.py lines 71-75), before the
final `float(... or 0.0)` coercion. -/
def sentimentRaw (ctx : Ctx) : PyVal :=
  match ctxGet ctx "sentiment_score" with
  | .none =>
    match ctxGet ctx "sentiment" with
    | .dict d => pyOr (dGet d "sentiment_score") (dGet d "score")
    | v => v
  | v => v

/-- Embedding of the sentiment feature (line 76): `float(sentiment_val or 0.0)`. -/
def sentimentOf (ctx : Ctx) : Except String ℚ :=
  pyFloat (pyOr (sentimentRaw ctx) (.float 0))

/-- Embedding of the per-source sentiment block (lines 79-89): returns the
coerced value list and their mean; any coercion failure inside the guarded
`try` degrades to `([], 0.0)`. -/
def sourceSentiments (ctx : Ctx) : List ℚ × ℚ :=
  match pyOr (ctxGet ctx "source_sentiments") (ctxGet ctx "sentiment_sources") with
  | .dict d =>
    if d.isEmpty then ([], 0) else
    match pyFloatList (d.map (·.2)) with
    | .ok vs => (vs, if vs.isEmpty then 0 else listMean vs)
    | .error _ => ([], 0)
  | _ => ([], 0)

/-- Trending extraction chain (lines 91-97), before coercion. -/
def trendingRaw (ctx : Ctx) : PyVal :=
  match ctxGet ctx "trend_score" with
  | .none =>
    match ctxGet ctx "trending_score" with
    | .none =>
      match ctxGet ctx "trending" with
      | .dict d => pyOr (dGet d "score") (dGet d "trending_score")
      | v => v
    | v => v
  | v => v

/-- Embedding of the trending feature (line 98): `float(trending_val or 0.0)`. -/
def trendingOf (ctx : Ctx) : Except String ℚ :=
  pyFloat (pyOr (trendingRaw ctx) (.float 0))

/-- Comment-turnout-trend extraction chain (lines 101-105), before coercion. -/
def commentTrendRaw (ctx : Ctx) : PyVal :=
  match ctxGet ctx "comment_turnout_trend" with
  | .none =>
    match ctxGet ctx "turnout_trends" with
    | .dict d => pyOr (dGet d "comments") (dGet d "comment")
    | v => v
  | v => v

/-- Embedding of the comment-turnout-trend feature (line 106). -/
def commentTrendOf (ctx : Ctx) : Except String ℚ :=
  pyFloat (pyOr (commentTrendRaw ctx) (.float 0))

/-- Proposal-text resolution (lines 109-113). -/
def proposalTextRaw (ctx : Ctx) : PyVal :=
  match ctxGet ctx "proposal_text" with
  | .none =>
    match ctxGet ctx "proposal" with
    | .dict d => pyOr (dGet d "text") (dGet d "proposal_text")
    | _ => .none
  | v => v

/-- Embedding of `proposal_length` (lines 114-117): word count of
`str(proposal_text)` when truthy, else `0.0`; the surrounding `try` cannot
fail, and indeed this definition is total. -/
def proposalLengthOf (ctx : Ctx) : ℚ :=
  let pt := proposalTextRaw ctx
  if pyTruthy pt then (wordCount (pyStr pt) : ℚ) else 0

/-- Engagement-weight extraction chain (lines 119-123), before coercion.
Note the default: `context.get("sentiment", {})`. -/
def engagementRaw (ctx : Ctx) : PyVal :=
  match ctxGet ctx "engagement_weight" with
  | .none =>
    match ctxGetD ctx "sentiment" (.dict []) with
    | .dict d => dGet d "weight"
    | v => v
  | v => v

/-- Embedding of the engagement weight feature (line 124). -/
def engagementOf (ctx : Ctx) : Except String ℚ :=
  pyFloat (pyOr (engagementRaw ctx) (.float 0))

/-- The heuristic approval adjustment (outcome_forecaster.py lines 152-161),
added to the historical baseline when no trained model applies. -/
def heuristicAdjust (sentiment source_sentiment_avg trending comment_turnout_trend
    turnout_trend turnout engagement_weight proposal_length : ℚ) : ℚ :=
  0.18 * sentiment
    + 0.12 * source_sentiment_avg
    + 0.10 * trending
    + 0.15 * comment_turnout_trend
    + 0.08 * turnout_trend
    + 0.06 * (turnout - 0.5)
    + 0.07 * (engagement_weight - 0.5)
    + 0.03 * (proposal_length / 500)

/-- Result record of `forecast_outcomes`. -/
structure Forecast where
  approval_prob : ℚ
  turnout_estimate : ℚ
  margin_of_error : ℚ
  confidence : ℚ
deriving DecidableEq, Repr

/-- Historical approval-rate baseline (lines 56, 60-61): `0.5` when the
`load_historical_rates` call raises or the key is absent. -/
def histApprovalRate (hist : Option Hist) : ℚ :=
  match hist with
  | Option.none => 0.5
  | some h => h.approval_rate.getD 0.5

/-- Historical turnout baseline (lines 57, 62): default `0.0`. -/
def histTurnout (hist : Option Hist) : ℚ :=
  match hist with
  | Option.none => 0
  | some h => h.turnout.getD 0

/-- Historical turnout trend (lines 58, 63): default `0.0`. -/
def histTurnoutTrend (hist : Option Hist) : ℚ :=
  match hist with
  | Option.none => 0
  | some h => h.turnout_trend.getD 0

/-- The heuristic approval probability before the final clamp (lines 150-162):
the clamped historical baseline plus the fixed linear adjustment. -/
def approvalHeuristic (hist : Option Hist) (ctx : Ctx)
    (sentiment trending comment_turnout_trend engagement_weight : ℚ) : ℚ :=
  clamp01 (histApprovalRate hist) +
    heuristicAdjust sentiment (sourceSentiments ctx).2 trending comment_turnout_trend
      (histTurnoutTrend hist) (clamp01 (histTurnout hist)) engagement_weight
      (proposalLengthOf ctx)

/-- Total part of `forecast_outcomes` (outcome_forecaster.py lines 53-194),
taking the four already-coerced unguarded context features as arguments.

Parameters: `fexp` stands for `numpy.exp` and `fsqrt` for the square root
inside `numpy.std`; `hist` is the result of the `load_historical_rates`
lookup (`none` when that call raises, as it always does in the shipped code
where the function does not exist — the surrounding `try` then keeps the
defaults `0.5 / 0.0 / 0.0`); `model` is the loaded model (`none` when the
model file is missing/invalid or `_apply_model` raises).

`numpy.isnan` on line 179 is constantly false on `ℚ` (rationals have no
NaN), so the `engagement_factor` branch collapses to the clamp. -/
def forecastCore (fexp fsqrt : ℚ → ℚ) (hist : Option Hist) (model : Option Model)
    (ctx : Ctx) (sentiment trending comment_turnout_trend engagement_weight : ℚ) :
    Forecast :=
  let approval_base := clamp01 (histApprovalRate hist)
  let turnout_estimate := clamp01 (histTurnout hist)
  let turnout_trend := histTurnoutTrend hist
  let sv := sourceSentiments ctx
  let source_sentiment_values := sv.1
  let source_sentiment_avg := sv.2
  let proposal_length := proposalLengthOf ctx
  let features : List (String × ℚ) :=
    [("approval_rate", approval_base), ("turnout", turnout_estimate),
     ("sentiment", sentiment), ("trending", trending),
     ("proposal_length", proposal_length), ("engagement_weight", engagement_weight),
     ("turnout_trend", turnout_trend), ("source_sentiment_avg", source_sentiment_avg),
     ("comment_turnout_trend", comment_turnout_trend)]
  let approval1 : ℚ := match model with
    | some m => applyModel fexp m features
    | Option.none => approvalHeuristic hist ctx sentiment trending
        comment_turnout_trend engagement_weight
  let approval_prob := clamp01 approval1
  let sentiment_spread : ℚ :=
    if 1 < source_sentiment_values.length then fsqrt (popVar source_sentiment_values)
    else match source_sentiment_values with
      | v :: _ => qabs (v - sentiment) * 0.5
      | [] => qabs sentiment * 0.3
  let turnout_volatility := qabs turnout_trend + qabs comment_turnout_trend
  let engagement_factor := clamp01 engagement_weight
  let base_margin := (0.08 + 0.22 * turnout_volatility + 0.12 * sentiment_spread)
      * (1 - 0.35 * engagement_factor)
  let margin_of_error := qmax 0.02 (qmin 0.45 base_margin)
  let confidence := qmax 0.05 (qmin 0.95
    (1 - margin_of_error + 0.1 * qabs sentiment + 0.05 * qabs source_sentiment_avg))
  { approval_prob := approval_prob, turnout_estimate := turnout_estimate,
    margin_of_error := margin_of_error, confidence := confidence }

/-- Embedding of `forecast_outcomes` proper: the four context fields whose
coercion is not guarded by a `try` are extracted in the source's statement
order (sentiment, trending, comment trend, engagement weight), so the first
uncaught Python exception aborts the call exactly as in the source; all
remaining arithmetic is total and lives in `forecastCore`. -/
def forecast_outcomes (fexp fsqrt : ℚ → ℚ) (hist : Option Hist) (model : Option Model)
    (ctx : Ctx) : Except String Forecast := do
  let sentiment ← sentimentOf ctx
  let trending ← trendingOf ctx
  let comment_turnout_trend ← commentTrendOf ctx
  let engagement_weight ← engagementOf ctx
  pure (forecastCore fexp fsqrt hist model ctx sentiment trending
    comment_turnout_trend engagement_weight)

/-! ## String helpers modelling Python `str` methods

Lean's built-in `String.toLower`/`trim`/`replace` do not reduce inside the
kernel, so the Python string methods are modelled directly on character
lists (ASCII, which covers every string these programs compare). -/

/-- Python `str.lower()` (ASCII range). -/
def pyLower (s : String) : String :=
  ⟨s.data.map (fun c => if 65 ≤ c.toNat ∧ c.toNat ≤ 90 then Char.ofNat (c.toNat + 32) else c)⟩

/-- Strip leading whitespace from a character list. -/
def dropWs : List Char → List Char
| [] => []
| c :: cs => if isWs c then dropWs cs else c :: cs

/-- Python `str.strip()`. -/
def pyStrip (s : String) : String := ⟨(dropWs (dropWs s.data.reverse).reverse)⟩

/-- Python `str.replace(pat, rep)` for a single-character pattern (the only
form these programs use: `" " → "_"` and `" " → ""`). -/
def pyReplaceChar (pat : Char) (rep : List Char) (s : String) : String :=
  ⟨s.data.flatMap (fun c => if c = pat then rep else [c])⟩

/-! ## Embedding of `scripts/bench_moe_compare.py` -/

namespace Bench

/-- The feature dict produced by `_extract_context_features`
(bench_moe_compare.py lines 111-125), as consumed by `_n_effective`,
`_moe_new` and `_confidence_from_moe`. -/
structure BFeatures where
  approval_rate : ℚ
  turnout : ℚ
  turnout_trend : ℚ
  sentiment : ℚ
  source_sentiment_avg : ℚ
  source_sentiment_values : List ℚ
  trending : ℚ
  comment_turnout_trend : ℚ
  engagement_weight : ℚ
  primary_source : String
  ctx_kb : ℚ
  topics_n : ℚ
  snippets_n : ℚ

/-- Embedding of `_pop_std` (lines 22-26): population standard deviation,
`0.0` on the empty list, with the square root abstract. -/
def popStd (fsqrt : ℚ → ℚ) (xs : List ℚ) : ℚ :=
  if xs.isEmpty then 0 else fsqrt (popVar xs)

/-- The base-count table of `_n_effective` (lines 145-152). -/
def base_by_src : List (String × ℚ) :=
  [("forum", 250), ("news", 200), ("chat", 120),
   ("onchain", 100), ("governance", 220), ("consolidated", 300)]

/-- Embedding of `_n_effective` (bench_moe_compare.py lines 144-164). -/
def nEffective (f : BFeatures) : ℚ :=
  let base_n := (List.lookup (pyLower f.primary_source) base_by_src).getD 150
  let N := base_n + 10 * f.ctx_kb + 20 * f.topics_n + 15 * f.snippets_n
  let N' := N * (1 + 0.5 * f.engagement_weight)
  qmax 30 (qmin 5000 N')

/-- Embedding of `_moe_new` (bench_moe_compare.py lines 190-222), with the
float `x ** 0.5` abstract as `fsqrt`.  `if not (moe_wilson > 0.0)` is
`moe_wilson ≤ 0` on the totally ordered rationals. -/
def moe_new (fsqrt : ℚ → ℚ) (f : BFeatures) (p : ℚ) : ℚ :=
  let sentiment_spread :=
    if 1 < f.source_sentiment_values.length then popStd fsqrt f.source_sentiment_values
    else match f.source_sentiment_values with
      | v :: _ => qabs (v - f.sentiment) * 0.5
      | [] => qabs f.sentiment * 0.3
  let turnout_volatility := qabs f.turnout_trend + qabs f.comment_turnout_trend
  let engagement_factor := qmax 0 (qmin 1 f.engagement_weight)
  let base_margin := (0.06 + 0.18 * turnout_volatility + 0.10 * sentiment_spread)
      * (1 - 0.35 * engagement_factor)
  let margin_heuristic := qmax 0.02 (qmin 0.45 base_margin)
  let N_eff := nEffective f
  let z : ℚ := 1.96
  let denom := 1 + z * z / N_eff
  let center := (p + z * z / (2 * N_eff)) / denom
  let radius := (z / denom) * fsqrt (p * (1 - p) / N_eff + z * z / (4 * (N_eff * N_eff)))
  let wilson_low := qmax 0 (center - radius)
  let wilson_high := qmin 1 (center + radius)
  let moe_wilson0 := 0.5 * (wilson_high - wilson_low)
  let moe_wilson := if moe_wilson0 ≤ 0
    then z * fsqrt (p * (1 - p)) / fsqrt N_eff
    else moe_wilson0
  let w_heuristic := 1 / (1 + N_eff / 400)
  let w_stat := 1 - w_heuristic
  let margin := w_heuristic * margin_heuristic + w_stat * moe_wilson
  qmax 0.01 (qmin 0.45 margin)

/-- Embedding of `_confidence_from_moe` (bench_moe_compare.py lines 225-228). -/
def confidence_from_moe (moe : ℚ) (f : BFeatures) : ℚ :=
  qmax 0.05 (qmin 0.99
    (1 - moe + 0.05 * qabs f.sentiment + 0.02 * qabs f.source_sentiment_avg))

/-- Modelled from the spec (§4.4, heuristic term with updated coefficients):
`sentiment_spread` from the value list, `turnout_volatility`,
`engagement_factor`, then `clamp((0.06 + 0.18·vol + 0.10·spread)·(1 −
0.35·engagement), 0.02, 0.45)`. -/
def marginHeuristicUpdated (fsqrt : ℚ → ℚ) (f : BFeatures) : ℚ :=
  let sentiment_spread :=
    if 1 < f.source_sentiment_values.length then popStd fsqrt f.source_sentiment_values
    else match f.source_sentiment_values with
      | v :: _ => qabs (v - f.sentiment) * 0.5
      | [] => qabs f.sentiment * 0.3
  let turnout_volatility := qabs f.turnout_trend + qabs f.comment_turnout_trend
  let engagement_factor := qmax 0 (qmin 1 f.engagement_weight)
  qmax 0.02 (qmin 0.45
    ((0.06 + 0.18 * turnout_volatility + 0.10 * sentiment_spread)
      * (1 - 0.35 * engagement_factor)))

/-- Modelled from the spec (§4.4, updated statistical term): the Wilson-score
half-width with `z = 1.96`. -/
def wilsonHalfWidth (fsqrt : ℚ → ℚ) (p N : ℚ) : ℚ :=
  let z : ℚ := 1.96
  let denom := 1 + z * z / N
  let center := (p + z * z / (2 * N)) / denom
  let radius := (z / denom) * fsqrt (p * (1 - p) / N + z * z / (4 * (N * N)))
  0.5 * (qmin 1 (center + radius) - qmax 0 (center - radius))

/-- Modelled from the spec (§4.4, legacy statistical term): the normal
approximation `z·sqrt(p·(1−p)/N_eff)`. -/
def moeStatNormal (fsqrt : ℚ → ℚ) (p N : ℚ) : ℚ :=
  1.96 * fsqrt (p * (1 - p) / N)

/-- Modelled from the spec (§4.4, updated blend policy, as restated by claim
C3): `margin = clamp(w·margin_heuristic_updated + (1−w)·moe_wilson, 0.01,
0.45)` with `w = 1/(1 + N_eff/400)`, where `moe_wilson` falls back to the
normal approximation whenever the Wilson half-width is non-positive. -/
def moeNewSpec (fsqrt : ℚ → ℚ) (f : BFeatures) (p : ℚ) : ℚ :=
  let N := nEffective f
  let mw0 := wilsonHalfWidth fsqrt p N
  let mw := if mw0 ≤ 0 then moeStatNormal fsqrt p N else mw0
  let w := 1 / (1 + N / 400)
  qmax 0.01 (qmin 0.45 (w * marginHeuristicUpdated fsqrt f + (1 - w) * mw))

end Bench

/-! ## Embedding of `src/analysis/calibration.py` -/

namespace Calib

/-- A calibration file as described by the module docstring: a `type` tag,
optional linear parameters `m`, `c`, optional per-source overrides of them,
and optional `points` for the piecewise-linear form.  Only well-typed
configurations are modelled (each claim quantifies over those); in the
source a non-dict override value is ignored, which here corresponds to the
override being absent from the list. -/
structure Config where
  type : Option String
  m : Option ℚ
  c : Option ℚ
  source_overrides : Option (List (String × (Option ℚ × Option ℚ)))
  points : Option (List (ℚ × ℚ))

/-- Embedding of `_clamp01` (calibration.py lines 33-34), written exactly as
in the source: `0.0 if x < 0.0 else 1.0 if x > 1.0 else x`. -/
def clamp01Cal (x : ℚ) : ℚ := if x < 0 then 0 else if 1 < x then 1 else x

/-- Python tuple comparison used by `sorted` on `(x, y)` pairs. -/
def pairLe (a b : ℚ × ℚ) : Bool := a.1 < b.1 ∨ (a.1 = b.1 ∧ a.2 ≤ b.2)

/-- Insert into a sorted list of points. -/
def insertPair (x : ℚ × ℚ) : List (ℚ × ℚ) → List (ℚ × ℚ)
| [] => [x]
| y :: ys => if pairLe x y then x :: y :: ys else y :: insertPair x ys

/-- Python `sorted` on `(x, y)` pairs (stability is irrelevant here: equal
pairs are identical). -/
def sortPairs (l : List (ℚ × ℚ)) : List (ℚ × ℚ) := l.foldr insertPair []

/-- The bracketing-interval scan of `_interp_points` (lines 45-51): the first
consecutive pair with `x0 ≤ x ≤ x1` interpolates; a fall-through returns `x`. -/
def interpScan (x : ℚ) : List (ℚ × ℚ) → ℚ
| (x0, y0) :: (x1, y1) :: rest =>
    if x0 ≤ x ∧ x ≤ x1 then
      (if x1 = x0 then y0 else y0 + (x - x0) / (x1 - x0) * (y1 - y0))
    else interpScan x ((x1, y1) :: rest)
| _ => x

/-- Embedding of `_interp_points` (calibration.py lines 37-51). -/
def interpPoints (points : List (ℚ × ℚ)) (x : ℚ) : ℚ :=
  if points.isEmpty then x else
  let pts := sortPairs points
  match pts with
  | [] => x
  | p0 :: _ =>
    if x ≤ p0.1 then p0.2
    else if ((pts.getLast?).getD p0).1 ≤ x then ((pts.getLast?).getD p0).2
    else interpScan x pts

/-- Embedding of `apply_calibration` (calibration.py lines 62-92).  The
`calib or load_calibration()` / `if not calib` prelude is modelled by the
`Option Config` argument: `none` covers a missing/unreadable/empty
calibration file as well as a falsy explicit argument. -/
def apply_calibration (p : ℚ) (source : Option String) (calib : Option Config) : ℚ :=
  match calib with
  | Option.none => p
  | some cal =>
    let typ := pyLower (cal.type.getD "linear")
    if typ = "linear" then
      let m0 := cal.m.getD 1
      let c0 := cal.c.getD 0
      let mc : ℚ × ℚ :=
        match source, cal.source_overrides with
        | some s, some ovs =>
          if s ≠ "" then
            match List.lookup (pyLower s) ovs with
            | some ov => (ov.1.getD m0, ov.2.getD c0)
            | Option.none => (m0, c0)
          else (m0, c0)
        | _, _ => (m0, c0)
      clamp01Cal (mc.1 * p + mc.2)
    else if typ = "points" then
      clamp01Cal (interpPoints (cal.points.getD []) p)
    else p

end Calib

/-! ## Embedding of `src/analysis/train_forecaster.py` -/

namespace Train

/-- A historical governance DataFrame as consumed by `_prepare_features`:
each relevant column is either absent (`none`, the `df.get`/`issubset`
miss case) or a list of values aligned with the frame's index of length
`nrows`.  Numeric columns carry rationals (`astype(float)` applied to
non-numeric data would raise before any logic of interest runs). -/
structure GovFrame where
  nrows : ℕ
  status : Option (List String)
  ayes_amount : Option (List ℚ)
  total_voted_dot : Option (List ℚ)
  voted_percentage : Option (List ℚ)
  participants : Option (List ℚ)
  eligible_dot : Option (List ℚ)
  sentiment_score : Option (List ℚ)
  sentiment : Option (List ℚ)
  trend_score : Option (List ℚ)
  trending_score : Option (List ℚ)
  source_sentiment_avg : Option (List ℚ)
  comment_turnout_trend : Option (List ℚ)

/-- The target labels (train_forecaster.py line 36): the `Status` column,
lower-cased and compared with "executed", as floats; an absent column gives
the empty series. -/
def yOf (df : GovFrame) : List ℚ :=
  (df.status.getD []).map (fun s => if pyLower s = "executed" then 1 else 0)

/-- Approval rate column (lines 39-42): `ayes_amount / Total_Voted_DOT` with
a zero denominator mapped through NaN to `0.0`; zeros when either column is
missing. -/
def approvalCol (df : GovFrame) : List ℚ :=
  match df.ayes_amount, df.total_voted_dot with
  | some a, some t => List.zipWith (fun ai ti => if ti = 0 then 0 else ai / ti) a t
  | _, _ => List.replicate df.nrows 0

/-- Turnout column (lines 45-50): `Voted_percentage / 100`, else
`Participants / Eligible_DOT` with the zero-denominator guard, else zeros. -/
def turnoutCol (df : GovFrame) : List ℚ :=
  match df.voted_percentage with
  | some vp => vp.map (· / 100)
  | Option.none =>
    match df.participants, df.eligible_dot with
    | some p, some e => List.zipWith (fun pi ei => if ei = 0 then 0 else pi / ei) p e
    | _, _ => List.replicate df.nrows 0

/-- Sentiment column (lines 52-57): `sentiment_score`, else `sentiment`,
else zeros. -/
def sentimentCol (df : GovFrame) : List ℚ :=
  match df.sentiment_score with
  | some c => c
  | Option.none =>
    match df.sentiment with
    | some c => c
    | Option.none => List.replicate df.nrows 0

/-- Trending column (lines 59-64): `trend_score`, else `trending_score`,
else zeros. -/
def trendingCol (df : GovFrame) : List ℚ :=
  match df.trend_score with
  | some c => c
  | Option.none =>
    match df.trending_score with
    | some c => c
    | Option.none => List.replicate df.nrows 0

/-- Source-sentiment-average column (lines 66-69). -/
def sourceAvgCol (df : GovFrame) : List ℚ :=
  df.source_sentiment_avg.getD (List.replicate df.nrows 0)

/-- Comment-turnout-trend column (lines 71-74). -/
def commentTrendCol (df : GovFrame) : List ℚ :=
  df.comment_turnout_trend.getD (List.replicate df.nrows 0)

/-- Row-wise zip of the six feature columns (the `pd.DataFrame` of line 76,
read back row by row). -/
def zip6 : List ℚ → List ℚ → List ℚ → List ℚ → List ℚ → List ℚ → List (List ℚ)
| a :: as', b :: bs, c :: cs, d :: ds, e :: es, f :: fs =>
    [a, b, c, d, e, f] :: zip6 as' bs cs ds es fs
| _, _, _, _, _, _ => []

/-- Feature-column names, in the order of `_prepare_features`. -/
def featureNames : List String :=
  ["approval_rate", "turnout", "sentiment", "trending",
   "source_sentiment_avg", "comment_turnout_trend"]

/-- The feature matrix of `_prepare_features` (one row per frame row). -/
def featureRows (df : GovFrame) : List (List ℚ) :=
  zip6 (approvalCol df) (turnoutCol df) (sentimentCol df) (trendingCol df)
    (sourceAvgCol df) (commentTrendCol df)

/-- Embedding of `train_model` (train_forecaster.py lines 89-111).

`solver` stands for `numpy.linalg.lstsq(·, ·, rcond=None)[0]`, the library
routine documented to return the minimum-norm least-squares solution of
`X·β ≈ z`, given here as a coefficient-indexed function; `log` stands for
`numpy.log`.  Everything the repository itself computes around that library
call — the empty-input default, the `1e-6` clip, the log-odds transform,
the leading intercept column of ones and the naming of coefficients — is
embedded concretely. -/
def train_model (solver : List (List ℚ) → List ℚ → (ℕ → ℚ)) (log : ℚ → ℚ)
    (df : GovFrame) : Model :=
  let y := yOf df
  if y.length = 0 then { intercept := 0, coefficients := [] }
  else
    let eps : ℚ := 0.000001
    let yc := y.map (fun v => qmin (1 - eps) (qmax eps v))
    let z := yc.map (fun v => log (v / (1 - v)))
    let Xd := (featureRows df).map (fun row => 1 :: row)
    let beta := solver Xd z
    { intercept := beta 0,
      coefficients := featureNames.enum.map (fun p => (p.2, beta (p.1 + 1))) }

/-- Modelled from the spec (§4.2 training): the design matrix `X` "with
intercept column of ones" over the prepared feature rows. -/
def designMatrixSpec (df : GovFrame) : List (List ℚ) :=
  (featureRows df).map (fun row => 1 :: row)

/-- Modelled from the spec (§4.2 training): the regression target — the
binary executed labels clipped to `[ε, 1−ε]` with `ε = 1e-6` and passed
through the log-odds transform `z = ln(y/(1−y))`. -/
def targetsSpec (log : ℚ → ℚ) (df : GovFrame) : List ℚ :=
  (yOf df).map (fun v =>
    log (qmin (1 - 0.000001) (qmax 0.000001 v) / (1 - qmin (1 - 0.000001) (qmax 0.000001 v))))

end Train

/-! ## Embedding of `src/analysis/prediction_evaluator.py`

A small model of the pandas fragments `compare_predictions` uses: a
DataFrame is a column-name list plus one association list per row (rows
constructed below always carry exactly the frame's columns as keys).  Cells
are `na` (NaN / `pd.NA`), ints, floats or strings.  Pandas behaviour out of
this function's reach is not modelled: suffixing of overlapping non-key
merge columns does not occur in the theorems below (hypotheses keep the
frames' non-key columns disjoint, as they are in the repository's own
usage). -/

namespace PredEval

/-- A pandas cell. -/
inductive Cell where
| na : Cell
| int : ℤ → Cell
| num : ℚ → Cell
| str : String → Cell
deriving DecidableEq, Repr

/-- Merge-key equality: NaN compares unequal to everything (including NaN),
otherwise plain equality. -/
def cellEq (a b : Cell) : Bool :=
  match a, b with
  | .na, _ => false
  | _, .na => false
  | .int m, .int n => if m = n then true else false
  | .num p, .num q => if p = q then true else false
  | .str s, .str t => if s = t then true else false
  | _, _ => false

/-- Truthiness of a cell (`bool(v)`); NaN is truthy in Python. -/
def cellTruthy : Cell → Bool
| .na => true
| .int n => if n = 0 then false else true
| .num q => if q = 0 then false else true
| .str s => if s = "" then false else true

/-- Python `str(v)` of a cell (`str(float("nan")) = "nan"`). -/
def cellStr : Cell → String
| .na => "nan"
| .int n => toString n
| .num q => toString q
| .str s => s

/-- Is the cell missing (`isna`)? -/
def isNa : Cell → Bool
| .na => true
| _ => false

/-- A DataFrame: column names plus per-row association lists. -/
structure DF where
  cols : List String
  rows : List (List (String × Cell))

/-- Cell of `row` at column `c` (`NaN` when absent). -/
def rowGet (r : List (String × Cell)) (c : String) : Cell :=
  (List.lookup c r).getD .na

/-- Embedding of `_normalise_columns` (prediction_evaluator.py lines 14-18):
`c.strip().lower().replace(" ", "_")` over the column names. -/
def normName (s : String) : String := pyReplaceChar ' ' ['_'] (pyLower (pyStrip s))

/-- Apply `_normalise_columns` to a frame. -/
def normaliseColumns (df : DF) : DF :=
  { cols := df.cols.map normName,
    rows := df.rows.map (fun r => r.map (fun kv => (normName kv.1, kv.2))) }

/-- Embedding of the local `_canon` (lines 58-60):
`str(v or "").strip().lower().replace(" ", "") or "gov"`. -/
def canon (v : Cell) : String :=
  let s := pyReplaceChar ' ' [] (pyLower (pyStrip (cellStr (if cellTruthy v then v else .str ""))))
  if s = "" then "gov" else s

/-- Column selection `df[[c, ...]]`: `KeyError` when a column is absent. -/
def selectCols (df : DF) (cs : List String) : Except String DF :=
  if cs.all (fun c => df.cols.contains c) then
    .ok { cols := cs, rows := df.rows.map (fun r => cs.map (fun c => (c, rowGet r c))) }
  else .error "KeyError: missing column"

/-- Left merge `l.merge(r, on=keys, how="left")`: each left row is joined to
every key-matching right row, or kept once with NaN right columns when no
right row matches; `KeyError` when a key column is absent on either side. -/
def mergeLeft (l r : DF) (keys : List String) : Except String DF :=
  if (keys.all (fun c => l.cols.contains c)) ∧ (keys.all (fun c => r.cols.contains c)) then
    let rExtra := r.cols.filter (fun c => !(keys.contains c))
    .ok { cols := l.cols ++ rExtra,
          rows := l.rows.flatMap (fun lr =>
            let ms := r.rows.filter (fun rr => keys.all (fun k => cellEq (rowGet lr k) (rowGet rr k)))
            match ms with
            | [] => [lr ++ rExtra.map (fun c => (c, Cell.na))]
            | _ => ms.map (fun rr => lr ++ rExtra.map (fun c => (c, rowGet rr c)))) }
  else .error "KeyError: merge key missing"

/-- Assign a full column (`df[c] = values`), overwriting in place or
appending a new column. -/
def setColVals (df : DF) (c : String) (vs : List Cell) : DF :=
  if df.cols.contains c then
    { cols := df.cols,
      rows := (df.rows.zip vs).map (fun rv =>
        rv.1.map (fun kv => if kv.1 = c then (kv.1, rv.2) else kv)) }
  else
    { cols := df.cols ++ [c],
      rows := (df.rows.zip vs).map (fun rv => rv.1 ++ [(c, rv.2)]) }

/-- Assign a scalar to a column (`df[c] = v`). -/
def setColScalar (df : DF) (c : String) (v : Cell) : DF :=
  setColVals df c (List.replicate df.rows.length v)

/-- `df[c].isna().all()`. -/
def isnaAll (df : DF) (c : String) : Bool := df.rows.all (fun r => isNa (rowGet r c))

/-- The expected (lower-case) column list of lines 90-98. -/
def expectedCols : List String :=
  ["proposal_id", "dao", "predicted", "actual", "confidence",
   "prediction_time", "margin_of_error"]

/-- The rename map of lines 102-110. -/
def columnMap : List (String × String) :=
  [("proposal_id", "Proposal ID"), ("dao", "DAO"), ("predicted", "Predicted"),
   ("actual", "Actual"), ("confidence", "Confidence"),
   ("prediction_time", "Prediction Time"), ("margin_of_error", "Margin of Error")]

/-- The output column order of lines 113-123. -/
def outCols : List String :=
  ["Proposal ID", "DAO", "Predicted", "Actual", "Confidence",
   "Prediction Time", "Margin of Error"]

/-- Rename columns through `columnMap`. -/
def renameCols (df : DF) : DF :=
  { cols := df.cols.map (fun c => (List.lookup c columnMap).getD c),
    rows := df.rows.map (fun r => r.map (fun kv => ((List.lookup kv.1 columnMap).getD kv.1, kv.2))) }

/-- The canonicalised-DAO fallback join (prediction_evaluator.py lines
67-79): add `dao_key` columns via `_canon` (or the scalar `"gov"` when a
`dao` column is absent), merge on `(proposal_id, dao_key)`, and restore a
`dao` column from `dao_key` when missing. -/
def level2Frame (pred actual : DF) : Except String DF := do
  let predKey := if pred.cols.contains "dao"
    then setColVals pred "dao_key" (pred.rows.map (fun r => Cell.str (canon (rowGet r "dao"))))
    else setColScalar pred "dao_key" (Cell.str "gov")
  let actKey := if actual.cols.contains "dao"
    then setColVals actual "dao_key" (actual.rows.map (fun r => Cell.str (canon (rowGet r "dao"))))
    else setColScalar actual "dao_key" (Cell.str "gov")
  let actKeySel ← selectCols actKey ["proposal_id", "dao_key", "actual"]
  let m ← mergeLeft predKey actKeySel ["proposal_id", "dao_key"]
  pure (if !(m.cols.contains "dao") ∧ m.cols.contains "dao_key"
    then setColVals m "dao" (m.rows.map (fun r => rowGet r "dao_key"))
    else m)

/-- The proposal-id-only fallback join (prediction_evaluator.py lines
80-87): merge on `proposal_id` alone and default a missing `dao` column to
the predictions' own `dao` column or the scalar `"Gov"`. -/
def level3Frame (pred actual : DF) : Except String DF := do
  let actSel2 ← selectCols actual ["proposal_id", "actual"]
  let m ← mergeLeft pred actSel2 ["proposal_id"]
  pure (if !(m.cols.contains "dao") then
      (if pred.cols.contains "dao"
       then setColVals m "dao" (pred.rows.map (fun r => rowGet r "dao"))
       else setColScalar m "dao" (Cell.str "Gov"))
    else m)

/-- The output stage (prediction_evaluator.py lines 89-125): synthesize
missing expected columns as `pd.NA`, rename to the fixed display names and
read the seven output columns back as records. -/
def finalizeEval (merged2 : DF) : Except String (List (List (String × Cell))) := do
  let merged3 := expectedCols.foldl
    (fun df c => if df.cols.contains c then df else setColScalar df c Cell.na) merged2
  let renamed := renameCols merged3
  let final ← selectCols renamed outCols
  pure final.rows

/-- Embedding of `compare_predictions` (prediction_evaluator.py lines 21-125),
with the three fallback join levels and the output stage in the source's
statement order.

`loaded` stands for the `Referenda` sheet returned by
`load_governance_data` (an external collaborator), consulted only when the
`df_actual` argument is `None` or empty; `none` arguments model Python
`None`.  The result is the `prediction_eval` record list. -/
def compare_predictions (loaded : DF) (dfPred : Option DF) (dfActual : Option DF) :
    Except String (List (List (String × Cell))) := do
  let dfActual' : DF := match dfActual with
    | Option.none => loaded
    | some a => if a.rows.isEmpty then loaded else a
  match dfPred with
  | Option.none => pure []
  | some dp =>
    if dp.rows.isEmpty ∨ dfActual'.rows.isEmpty then pure []
    else do
      let pred := normaliseColumns dp
      let actual := normaliseColumns dfActual'
      let actSel ← selectCols actual ["proposal_id", "dao", "actual"]
      let merged0 ← mergeLeft pred actSel ["proposal_id", "dao"]
      let merged1 ← if isnaAll merged0 "actual" then level2Frame pred actual else pure merged0
      let merged2 ← if isnaAll merged1 "actual" then level3Frame pred actual else pure merged1
      finalizeEval merged2

end PredEval

/-! ## Claim-specific auxiliary definitions -/

/-- Is the value safely float-coercible-or-falsy: `None`, a bool, an int or a
float?  (`float(v or 0.0)` succeeds on exactly these plus falsy containers
and the empty string.) -/
def numericish : PyVal → Bool
| .none => true
| .bool _ => true
| .int _ => true
| .float _ => true
| _ => false

/-- A context field that may legitimately be a nested dict: either the value
is numericish itself, or it is a dict whose recognized sub-keys are
numericish. -/
def dictOrNumericish (v : PyVal) (keys : List String) : Bool :=
  match v with
  | .dict d => keys.all (fun k => numericish (dGet d k))
  | v => numericish v

/-- Well-shaped contexts (claim C1, amended): every recognized scalar field
is absent, `None`, or numeric, and every recognized nested field is that or
a dict with such values at its recognized sub-keys. -/
def GoodCtx (ctx : Ctx) : Bool :=
  numericish (ctxGet ctx "sentiment_score") &&
  dictOrNumericish (ctxGet ctx "sentiment") ["sentiment_score", "score", "weight"] &&
  numericish (ctxGet ctx "trend_score") &&
  numericish (ctxGet ctx "trending_score") &&
  dictOrNumericish (ctxGet ctx "trending") ["score", "trending_score"] &&
  numericish (ctxGet ctx "comment_turnout_trend") &&
  dictOrNumericish (ctxGet ctx "turnout_trends") ["comments", "comment"] &&
  numericish (ctxGet ctx "engagement_weight")

/-- Modelled from the spec (§4.1 / claim C5): the claimed strict
first-present-wins sentiment precedence
`context.sentiment_score → context.sentiment.sentiment_score →
context.sentiment.score → 0.0`, read over float-valued fields ("present"
means the key is bound to a float). -/
def sentimentSpec (ctx : Ctx) : ℚ :=
  match List.lookup "sentiment_score" ctx with
  | some (.float q) => q
  | _ =>
    match ctxGet ctx "sentiment" with
    | .dict d =>
      (match List.lookup "sentiment_score" d with
       | some (.float q) => q
       | _ =>
         match List.lookup "score" d with
         | some (.float q) => q
         | _ => 0)
    | _ => 0

/-- Float-or-absent test used to state the amended sentiment precedence. -/
def floatOrAbsent : PyVal → Bool
| .none => true
| .float _ => true
| _ => false

/-- Contexts whose sentiment-related spots hold floats or are absent
(claim C5, amended statement's domain). -/
def GoodSentCtx (ctx : Ctx) : Bool :=
  floatOrAbsent (ctxGet ctx "sentiment_score") &&
  (match ctxGet ctx "sentiment" with
   | .dict d => floatOrAbsent (dGet d "sentiment_score") && floatOrAbsent (dGet d "score")
   | v => floatOrAbsent v)

/-- The sentiment value the code actually extracts on float-or-absent fields
(claim C5, amended): like the claimed precedence chain, except that (a) a
`context.sentiment` that is itself a number is used directly, and (b) inside
a nested sentiment dict a zero (falsy) `sentiment_score` falls through to
`score` — Python's `or` — and the final `or 0.0` sends `None`/0.0 to `0.0`. -/
def sentimentAmended (ctx : Ctx) : ℚ :=
  match ctxGet ctx "sentiment_score" with
  | .float q => q
  | _ =>
    match ctxGet ctx "sentiment" with
    | .dict d =>
      (match dGet d "sentiment_score" with
       | .float q =>
         if q ≠ 0 then q
         else (match dGet d "score" with | .float q2 => q2 | _ => 0)
       | _ => match dGet d "score" with | .float q2 => q2 | _ => 0)
    | .float q => q
    | _ => 0

/-- A sample benchmark feature vector (the "Chat moderate + trending"
scenario of bench_moe_compare.py lines 238-245, after extraction). -/
def benchSample : Bench.BFeatures :=
  { approval_rate := 0.52, turnout := 0.3, turnout_trend := 0,
    sentiment := 0.25, source_sentiment_avg := 0.175,
    source_sentiment_values := [0.25, 0.1],
    trending := 0.15, comment_turnout_trend := 0.1, engagement_weight := 0.7,
    primary_source := "chat", ctx_kb := 50, topics_n := 3, snippets_n := 4 }

/-- A one-row historical frame: a single executed referendum with only the
`Status` column populated. -/
def trainSampleFrame : Train.GovFrame :=
  { nrows := 1, status := some ["Executed"],
    ayes_amount := Option.none, total_voted_dot := Option.none,
    voted_percentage := Option.none, participants := Option.none,
    eligible_dot := Option.none, sentiment_score := Option.none,
    sentiment := Option.none, trend_score := Option.none,
    trending_score := Option.none, source_sentiment_avg := Option.none,
    comment_turnout_trend := Option.none }

/-- An empty historical frame (no rows, no columns). -/
def trainEmptyFrame : Train.GovFrame :=
  { nrows := 0, status := some [],
    ayes_amount := Option.none, total_voted_dot := Option.none,
    voted_percentage := Option.none, participants := Option.none,
    eligible_dot := Option.none, sentiment_score := Option.none,
    sentiment := Option.none, trend_score := Option.none,
    trending_score := Option.none, source_sentiment_avg := Option.none,
    comment_turnout_trend := Option.none }

/-- A dummy `Referenda` sheet for the evaluator's loader parameter (never
consulted in the theorems below, which pass non-empty actuals). -/
def loadedSheet : PredEval.DF :=
  { cols := ["proposal_id", "dao", "actual"], rows := [] }

/-- A one-row prediction frame in the shape of the repository's own test. -/
def predSample : PredEval.DF :=
  { cols := ["proposal_id", "dao", "predicted", "confidence",
             "prediction_time", "margin_of_error"],
    rows := [[("proposal_id", .int 1), ("dao", .str "DAO1"),
              ("predicted", .str "Approved"), ("confidence", .num 0.9),
              ("prediction_time", .str "2024-01-01"),
              ("margin_of_error", .num 0.05)]] }

/-- Actual outcomes with a duplicated join key `(1, "DAO1")`. -/
def actualDup : PredEval.DF :=
  { cols := ["proposal_id", "dao", "actual"],
    rows := [[("proposal_id", .int 1), ("dao", .str "DAO1"), ("actual", .str "Executed")],
             [("proposal_id", .int 1), ("dao", .str "DAO1"), ("actual", .str "Rejected")]] }

/-- Actual outcomes lacking the expected `actual` column. -/
def actualNoOutcomeCol : PredEval.DF :=
  { cols := ["proposal_id", "dao"],
    rows := [[("proposal_id", .int 1), ("dao", .str "DAO1")]] }

/-- Actual outcomes with a unique matching key for the witness. -/
def actualSample : PredEval.DF :=
  { cols := ["proposal_id", "dao", "actual"],
    rows := [[("proposal_id", .int 1), ("dao", .str "DAO1"), ("actual", .str "Rejected")]] }

/-- Decidable equality of `Except` results, for evaluating the embedding at
concrete inputs. -/
instance {ε α : Type} [DecidableEq ε] [DecidableEq α] : DecidableEq (Except ε α) := fun a b =>
  match a, b with
  | .ok x, .ok y => if h : x = y then isTrue (by rw [h]) else isFalse (by simp [h])
  | .error x, .error y => if h : x = y then isTrue (by rw [h]) else isFalse (by simp [h])
  | .ok _, .error _ => isFalse (by simp)
  | .error _, .ok _ => isFalse (by simp)

/-! ## Shared lemmas -/

theorem qmax_eq_max (a b : ℚ) : qmax a b = max a b := (max_def a b).symm

theorem qmin_eq_min (a b : ℚ) : qmin a b = min a b := (min_def a b).symm

theorem qabs_eq_abs (a : ℚ) : qabs a = |a| := by
  unfold qabs
  rcases lt_or_le a 0 with h | h
  · simp [h, abs_of_neg h]
  · simp [not_lt.mpr h, abs_of_nonneg h]

theorem qclamp_bounds (lo hi x : ℚ) (h : lo ≤ hi) :
    lo ≤ qmax lo (qmin hi x) ∧ qmax lo (qmin hi x) ≤ hi := by
  rw [qmax_eq_max, qmin_eq_min]
  exact ⟨le_max_left _ _, max_le h (min_le_left _ _)⟩

theorem clamp01_bounds (x : ℚ) : 0 ≤ clamp01 x ∧ clamp01 x ≤ 1 :=
  qclamp_bounds 0 1 x (by norm_num)

theorem clamp01_of_mem {x : ℚ} (h0 : 0 ≤ x) (h1 : x ≤ 1) : clamp01 x = x := by
  rw [clamp01, qmax_eq_max, qmin_eq_min, min_eq_right h1, max_eq_right h0]

theorem forecast_ok_iff (fexp fsqrt : ℚ → ℚ) (hist : Option Hist)
    (model : Option Model) (ctx : Ctx) (r : Forecast) :
    forecast_outcomes fexp fsqrt hist model ctx = .ok r ↔
      ∃ s tr ct w, sentimentOf ctx = .ok s ∧ trendingOf ctx = .ok tr ∧
        commentTrendOf ctx = .ok ct ∧ engagementOf ctx = .ok w ∧
        r = forecastCore fexp fsqrt hist model ctx s tr ct w := by
  unfold forecast_outcomes
  cases hs : sentimentOf ctx <;> cases ht : trendingOf ctx <;>
    cases hc : commentTrendOf ctx <;> cases hw : engagementOf ctx <;>
      simp [Bind.bind, Except.bind, Pure.pure, Except.pure, eq_comm]

/-! ## Claim C2 -/

/-- Claim C2: whenever `forecast_outcomes` returns a result, its fields obey
the documented ranges — `approval_prob ∈ [0,1]`, `turnout_estimate ∈ [0,1]`,
`margin_of_error ∈ [0.01, 0.45]`, `confidence ∈ [0.05, 0.99]` — and the
effective sample size `_n_effective` always lies in `[30, 5000]`. -/
theorem claim_C2_range_invariants :
    (∀ (fexp fsqrt : ℚ → ℚ) (hist : Option Hist) (model : Option Model)
        (ctx : Ctx) (r : Forecast),
        forecast_outcomes fexp fsqrt hist model ctx = .ok r →
          0 ≤ r.approval_prob ∧ r.approval_prob ≤ 1 ∧
          0 ≤ r.turnout_estimate ∧ r.turnout_estimate ≤ 1 ∧
          0.01 ≤ r.margin_of_error ∧ r.margin_of_error ≤ 0.45 ∧
          0.05 ≤ r.confidence ∧ r.confidence ≤ 0.99) ∧
    (∀ f : Bench.BFeatures, 30 ≤ Bench.nEffective f ∧ Bench.nEffective f ≤ 5000) := by
  constructor
  · intro fexp fsqrt hist model ctx r h
    obtain ⟨s, tr, ct, w, _, _, _, _, rfl⟩ := (forecast_ok_iff fexp fsqrt hist model ctx r).mp h
    simp only [forecastCore]
    refine ⟨(clamp01_bounds _).1, (clamp01_bounds _).2,
            (clamp01_bounds _).1, (clamp01_bounds _).2, ?_, ?_, ?_, ?_⟩
    · exact le_trans (by norm_num) (qclamp_bounds 0.02 0.45 _ (by norm_num)).1
    · exact (qclamp_bounds 0.02 0.45 _ (by norm_num)).2
    · exact (qclamp_bounds 0.05 0.95 _ (by norm_num)).1
    · exact le_trans (qclamp_bounds 0.05 0.95 _ (by norm_num)).2 (by norm_num)
  · intro f
    unfold Bench.nEffective
    exact qclamp_bounds 30 5000 _ (by norm_num)

/-- Witness for C2 at a concrete input: the default forecast of the empty
context. -/
theorem claim_C2_range_invariants_witness :
    0 ≤ (Forecast.mk (87/200) 0 (2/25) (23/25)).approval_prob ∧
    (Forecast.mk (87/200) 0 (2/25) (23/25)).approval_prob ≤ 1 ∧
    0 ≤ (Forecast.mk (87/200) 0 (2/25) (23/25)).turnout_estimate ∧
    (Forecast.mk (87/200) 0 (2/25) (23/25)).turnout_estimate ≤ 1 ∧
    0.01 ≤ (Forecast.mk (87/200) 0 (2/25) (23/25)).margin_of_error ∧
    (Forecast.mk (87/200) 0 (2/25) (23/25)).margin_of_error ≤ 0.45 ∧
    0.05 ≤ (Forecast.mk (87/200) 0 (2/25) (23/25)).confidence ∧
    (Forecast.mk (87/200) 0 (2/25) (23/25)).confidence ≤ 0.99 :=
  claim_C2_range_invariants.1 id id Option.none Option.none []
    (Forecast.mk (87/200) 0 (2/25) (23/25)) (by with_unfolding_all decide)

/-! ## Claim C10 -/

/-- Claim C10: the returned `turnout_estimate` does not depend on the context
(nor on the model): whenever two forecasts against the same
historical-statistics lookup both return, their turnout estimates coincide
and equal the historical turnout clamped to `[0, 1]`. -/
theorem claim_C10_turnout_independent
    (fexp₁ fsqrt₁ fexp₂ fsqrt₂ : ℚ → ℚ) (hist : Option Hist)
    (model₁ model₂ : Option Model) (ctx₁ ctx₂ : Ctx) (r₁ r₂ : Forecast)
    (h₁ : forecast_outcomes fexp₁ fsqrt₁ hist model₁ ctx₁ = .ok r₁)
    (h₂ : forecast_outcomes fexp₂ fsqrt₂ hist model₂ ctx₂ = .ok r₂) :
    r₁.turnout_estimate = clamp01 (histTurnout hist) ∧
    r₁.turnout_estimate = r₂.turnout_estimate := by
  obtain ⟨s₁, tr₁, ct₁, w₁, _, _, _, _, rfl⟩ :=
    (forecast_ok_iff fexp₁ fsqrt₁ hist model₁ ctx₁ r₁).mp h₁
  obtain ⟨s₂, tr₂, ct₂, w₂, _, _, _, _, rfl⟩ :=
    (forecast_ok_iff fexp₂ fsqrt₂ hist model₂ ctx₂ r₂).mp h₂
  simp [forecastCore]

/-- Witness for C10: the empty context versus a strongly positive one. -/
theorem claim_C10_turnout_independent_witness :
    (Forecast.mk (87/200) 0 (2/25) (23/25)).turnout_estimate = clamp01 (histTurnout Option.none) ∧
    (Forecast.mk (87/200) 0 (2/25) (23/25)).turnout_estimate =
      (Forecast.mk 1 0 (28/125) (19/20)).turnout_estimate :=
  claim_C10_turnout_independent id id id id Option.none Option.none Option.none
    [] [("sentiment_score", PyVal.float 4)]
    (Forecast.mk (87/200) 0 (2/25) (23/25)) (Forecast.mk 1 0 (28/125) (19/20))
    (by with_unfolding_all decide) (by with_unfolding_all decide)

/-! ## Claim C7 -/

set_option maxRecDepth 4000 in
/-- Counterexample to claim C7: on the context `{sentiment_score: 1.0}` the
forecaster returns `margin_of_error = 0.116` and `confidence = 0.95`, while
the claimed formula `clamp(1 − margin + 0.05·|sentiment| +
0.02·|source_sentiment_avg|, 0.05, 0.99)` yields `0.934` — the forecaster's
coefficients are `0.1`/`0.05` and its upper clamp is `0.95`. -/
theorem claim_C7_counterexample :
    (forecast_outcomes id id Option.none Option.none
        [("sentiment_score", PyVal.float 1)]).toOption.map
      (fun r => (r.confidence,
        qmax 0.05 (qmin 0.99 (1 - r.margin_of_error + 0.05 * qabs 1 + 0.02 * qabs 0))))
      = some (19/20, 467/500) ∧ (19/20 : ℚ) ≠ 467/500 := by
  with_unfolding_all decide

/-- Claim C7, amended: the benchmark's `_confidence_from_moe` satisfies the
claimed formula verbatim, while the forecaster's confidence uses
coefficients `0.1` and `0.05` and the tighter upper clamp `0.95`. -/
theorem claim_C7_confidence_formula :
    (∀ (moe : ℚ) (f : Bench.BFeatures),
        Bench.confidence_from_moe moe f =
          qmax 0.05 (qmin 0.99
            (1 - moe + 0.05 * qabs f.sentiment + 0.02 * qabs f.source_sentiment_avg))) ∧
    (∀ (fexp fsqrt : ℚ → ℚ) (hist : Option Hist) (model : Option Model)
        (ctx : Ctx) (s tr ct w : ℚ),
        (forecastCore fexp fsqrt hist model ctx s tr ct w).confidence =
          qmax 0.05 (qmin 0.95
            (1 - (forecastCore fexp fsqrt hist model ctx s tr ct w).margin_of_error
              + 0.1 * qabs s + 0.05 * qabs (sourceSentiments ctx).2))) := by
  constructor
  · intro moe f; rfl
  · intro fexp fsqrt hist model ctx s tr ct w; rfl

/-! ## Claim C9 -/

/-- Counterexample to claim C9: with the heuristic path and all else equal,
raising the sentiment feature from 4 to 5 leaves `approval_prob` at `1.0`
(the `[0,1]` clamp saturates), so the increase is not strict. -/
theorem claim_C9_counterexample :
    (forecast_outcomes id id Option.none Option.none
        [("sentiment_score", PyVal.float 4)]).toOption.map Forecast.approval_prob = some 1 ∧
    (forecast_outcomes id id Option.none Option.none
        [("sentiment_score", PyVal.float 5)]).toOption.map Forecast.approval_prob = some 1 ∧
    (4 : ℚ) < 5 := by
  with_unfolding_all decide

/-- Claim C9, amended: on the heuristic (no-model) path, with every other
feature held fixed, strictly increasing the sentiment feature strictly
increases `approval_prob` provided the `[0,1]` clamp binds at neither
endpoint (the unclamped heuristic values stay inside `[0,1]`); in general
the increase is non-strict. -/
theorem claim_C9_sentiment_monotonicity
    (fexp fsqrt : ℚ → ℚ) (hist : Option Hist) (ctx : Ctx) (tr ct w s s' : ℚ)
    (hlt : s < s')
    (h0 : 0 ≤ approvalHeuristic hist ctx s tr ct w)
    (h1 : approvalHeuristic hist ctx s' tr ct w ≤ 1) :
    (forecastCore fexp fsqrt hist Option.none ctx s tr ct w).approval_prob <
      (forecastCore fexp fsqrt hist Option.none ctx s' tr ct w).approval_prob := by
  have key : approvalHeuristic hist ctx s' tr ct w
      = approvalHeuristic hist ctx s tr ct w + 0.18 * (s' - s) := by
    unfold approvalHeuristic heuristicAdjust; ring
  have hmono : approvalHeuristic hist ctx s tr ct w < approvalHeuristic hist ctx s' tr ct w := by
    rw [key]; nlinarith
  have e₁ : (forecastCore fexp fsqrt hist Option.none ctx s tr ct w).approval_prob
      = clamp01 (approvalHeuristic hist ctx s tr ct w) := rfl
  have e₂ : (forecastCore fexp fsqrt hist Option.none ctx s' tr ct w).approval_prob
      = clamp01 (approvalHeuristic hist ctx s' tr ct w) := rfl
  rw [e₁, e₂, clamp01_of_mem h0 (le_trans hmono.le h1),
    clamp01_of_mem (le_trans h0 hmono.le) h1]
  exact hmono

/-- Witness for the amended C9 at sentiment `0 < 0.1` on the empty context. -/
theorem claim_C9_sentiment_monotonicity_witness :
    (forecastCore id id Option.none Option.none [] 0 0 0 0).approval_prob <
      (forecastCore id id Option.none Option.none [] 0.1 0 0 0).approval_prob :=
  claim_C9_sentiment_monotonicity id id Option.none [] 0 0 0 0 0.1
    (by with_unfolding_all decide)
    (by with_unfolding_all decide)
    (by with_unfolding_all decide)

/-! ## Claim C3 -/

/-- Claim C3: for every probability `p ∈ [0,1]` (and any feature vector,
whose effective sample size is always ≥ 30 by C2), `_moe_new` returns
exactly `clamp(w·margin_heuristic_updated + (1−w)·moe_wilson, 0.01, 0.45)`
with `w = 1/(1 + N_eff/400)`, where `moe_wilson` is the Wilson-score
half-width with `z = 1.96`, replaced by the normal-approximation value
`z·sqrt(p·(1−p)/N_eff)` whenever the Wilson half-width is non-positive.
The square root is abstract; the hypothesis `hsqrt` is the law
`sqrt(a/b) = sqrt(a)/sqrt(b)` of the real square root, needed because the
source computes the normal term as `sqrt(p(1−p))/sqrt(N)`. -/
theorem claim_C3_updated_margin_policy (fsqrt : ℚ → ℚ)
    (hsqrt : ∀ a b : ℚ, fsqrt (a / b) = fsqrt a / fsqrt b)
    (f : Bench.BFeatures) (p : ℚ) (h0 : 0 ≤ p) (h1 : p ≤ 1) :
    Bench.moe_new fsqrt f p = Bench.moeNewSpec fsqrt f p := by
  unfold Bench.moe_new Bench.moeNewSpec Bench.wilsonHalfWidth Bench.moeStatNormal
    Bench.marginHeuristicUpdated
  simp only [hsqrt]
  simp only [mul_div_assoc]

/-- Witness for C3 at the "Chat moderate + trending" feature vector and
`p = 1/2`, with the identity standing in for the abstract square root (the
identity satisfies the quotient law on `ℚ`). -/
theorem claim_C3_updated_margin_policy_witness :
    Bench.moe_new id benchSample (1/2) = Bench.moeNewSpec id benchSample (1/2) :=
  claim_C3_updated_margin_policy id (fun _ _ => rfl) benchSample (1/2)
    one_half_pos.le one_half_lt_one.le

/-! ## Claim C1 -/

theorem pyOr_numericish {a b : PyVal} (ha : numericish a = true)
    (hb : numericish b = true) : numericish (pyOr a b) = true := by
  unfold pyOr; split <;> assumption

theorem pyFloat_or_zero_ok {v : PyVal} (h : numericish v = true) :
    ∃ q, pyFloat (pyOr v (.float 0)) = .ok q := by
  cases v with
  | none => exact ⟨0, rfl⟩
  | bool b => cases b
              · exact ⟨0, rfl⟩
              · exact ⟨1, rfl⟩
  | int n =>
    by_cases hn : n = 0
    · exact ⟨0, by simp [pyOr, pyTruthy, hn, pyFloat]⟩
    · exact ⟨(n : ℚ), by simp [pyOr, pyTruthy, hn, pyFloat]⟩
  | float q =>
    by_cases hq : q = 0
    · exact ⟨0, by simp [pyOr, pyTruthy, hq, pyFloat]⟩
    · exact ⟨q, by simp [pyOr, pyTruthy, hq, pyFloat]⟩
  | str s => simp [numericish] at h
  | list l => simp [numericish] at h
  | dict d => simp [numericish] at h

theorem sentimentRaw_numericish {ctx : Ctx}
    (h1 : numericish (ctxGet ctx "sentiment_score") = true)
    (h2 : dictOrNumericish (ctxGet ctx "sentiment")
        ["sentiment_score", "score", "weight"] = true) :
    numericish (sentimentRaw ctx) = true := by
  unfold sentimentRaw
  cases hv : ctxGet ctx "sentiment_score" with
  | none =>
    cases hw : ctxGet ctx "sentiment" with
    | dict d =>
      rw [hw] at h2
      unfold dictOrNumericish at h2
      simp only [List.all, Bool.and_eq_true] at h2
      exact pyOr_numericish h2.1 h2.2.1
    | none => rw [hw] at h2; exact h2
    | bool b => rw [hw] at h2; exact h2
    | int n => rw [hw] at h2; exact h2
    | float q => rw [hw] at h2; exact h2
    | str s => rw [hw] at h2; exact h2
    | list l => rw [hw] at h2; exact h2
  | bool b => rw [hv] at h1; exact h1
  | int n => rw [hv] at h1; exact h1
  | float q => rw [hv] at h1; exact h1
  | str s => rw [hv] at h1; exact h1
  | list l => rw [hv] at h1; exact h1
  | dict d => rw [hv] at h1; exact h1

theorem trendingRaw_numericish {ctx : Ctx}
    (h1 : numericish (ctxGet ctx "trend_score") = true)
    (h2 : numericish (ctxGet ctx "trending_score") = true)
    (h3 : dictOrNumericish (ctxGet ctx "trending") ["score", "trending_score"] = true) :
    numericish (trendingRaw ctx) = true := by
  unfold trendingRaw
  cases hv : ctxGet ctx "trend_score" with
  | none =>
    cases hw : ctxGet ctx "trending_score" with
    | none =>
      cases hu : ctxGet ctx "trending" with
      | dict d =>
        rw [hu] at h3
        unfold dictOrNumericish at h3
        simp only [List.all, Bool.and_eq_true] at h3
        exact pyOr_numericish h3.1 h3.2.1
      | none => rw [hu] at h3; exact h3
      | bool b => rw [hu] at h3; exact h3
      | int n => rw [hu] at h3; exact h3
      | float q => rw [hu] at h3; exact h3
      | str s => rw [hu] at h3; exact h3
      | list l => rw [hu] at h3; exact h3
    | bool b => rw [hw] at h2; exact h2
    | int n => rw [hw] at h2; exact h2
    | float q => rw [hw] at h2; exact h2
    | str s => rw [hw] at h2; exact h2
    | list l => rw [hw] at h2; exact h2
    | dict d => rw [hw] at h2; exact h2
  | bool b => rw [hv] at h1; exact h1
  | int n => rw [hv] at h1; exact h1
  | float q => rw [hv] at h1; exact h1
  | str s => rw [hv] at h1; exact h1
  | list l => rw [hv] at h1; exact h1
  | dict d => rw [hv] at h1; exact h1

theorem commentTrendRaw_numericish {ctx : Ctx}
    (h1 : numericish (ctxGet ctx "comment_turnout_trend") = true)
    (h2 : dictOrNumericish (ctxGet ctx "turnout_trends") ["comments", "comment"] = true) :
    numericish (commentTrendRaw ctx) = true := by
  unfold commentTrendRaw
  cases hv : ctxGet ctx "comment_turnout_trend" with
  | none =>
    cases hw : ctxGet ctx "turnout_trends" with
    | dict d =>
      rw [hw] at h2
      unfold dictOrNumericish at h2
      simp only [List.all, Bool.and_eq_true] at h2
      exact pyOr_numericish h2.1 h2.2.1
    | none => rw [hw] at h2; exact h2
    | bool b => rw [hw] at h2; exact h2
    | int n => rw [hw] at h2; exact h2
    | float q => rw [hw] at h2; exact h2
    | str s => rw [hw] at h2; exact h2
    | list l => rw [hw] at h2; exact h2
  | bool b => rw [hv] at h1; exact h1
  | int n => rw [hv] at h1; exact h1
  | float q => rw [hv] at h1; exact h1
  | str s => rw [hv] at h1; exact h1
  | list l => rw [hv] at h1; exact h1
  | dict d => rw [hv] at h1; exact h1

theorem engagementRaw_numericish {ctx : Ctx}
    (h1 : numericish (ctxGet ctx "engagement_weight") = true)
    (h2 : dictOrNumericish (ctxGet ctx "sentiment")
        ["sentiment_score", "score", "weight"] = true) :
    numericish (engagementRaw ctx) = true := by
  unfold engagementRaw ctxGetD
  cases hv : ctxGet ctx "engagement_weight" with
  | none =>
    cases hl : List.lookup "sentiment" ctx with
    | none => exact rfl
    | some v =>
      have hw : ctxGet ctx "sentiment" = v := by simp [ctxGet, hl]
      rw [hw] at h2
      simp only [Option.getD]
      cases v with
      | dict d =>
        unfold dictOrNumericish at h2
        simp only [List.all, Bool.and_eq_true] at h2
        exact h2.2.2.1
      | none => exact h2
      | bool b => exact h2
      | int n => exact h2
      | float q => exact h2
      | str s => exact h2
      | list l => exact h2
  | bool b => rw [hv] at h1; exact h1
  | int n => rw [hv] at h1; exact h1
  | float q => rw [hv] at h1; exact h1
  | str s => rw [hv] at h1; exact h1
  | list l => rw [hv] at h1; exact h1
  | dict d => rw [hv] at h1; exact h1

/-- Counterexample to claim C1: on the context
`{sentiment_score: "strongly positive"}` — a malformed but recognized field —
`forecast_outcomes` raises `ValueError` (`float` of a non-numeric string)
instead of degrading to the field's default. -/
theorem claim_C1_counterexample :
    (forecast_outcomes id id Option.none Option.none
        [("sentiment_score", PyVal.str "strongly positive")]).toOption = Option.none := by
  with_unfolding_all decide

/-- Claim C1, amended: `forecast_outcomes` returns a result (never raises)
for every context whose recognized fields are absent, `None`, numeric, or a
dict with such values at the recognized sub-keys; absent fields degrade to
the documented defaults.  A recognized field bound to a truthy non-numeric
value (e.g. a non-numeric string) raises an uncaught exception instead. -/
theorem claim_C1_no_raise_on_wellshaped (fexp fsqrt : ℚ → ℚ) (hist : Option Hist)
    (model : Option Model) (ctx : Ctx) (h : GoodCtx ctx = true) :
    ∃ r, forecast_outcomes fexp fsqrt hist model ctx = .ok r := by
  unfold GoodCtx at h
  simp only [Bool.and_eq_true] at h
  obtain ⟨⟨⟨⟨⟨⟨⟨h1, h2⟩, h3⟩, h4⟩, h5⟩, h6⟩, h7⟩, h8⟩ := h
  obtain ⟨s, hs⟩ := pyFloat_or_zero_ok (sentimentRaw_numericish h1 h2)
  obtain ⟨tr, htr⟩ := pyFloat_or_zero_ok (trendingRaw_numericish h3 h4 h5)
  obtain ⟨ct, hct⟩ := pyFloat_or_zero_ok (commentTrendRaw_numericish h6 h7)
  obtain ⟨w, hw⟩ := pyFloat_or_zero_ok (engagementRaw_numericish h8 h2)
  exact ⟨forecastCore fexp fsqrt hist model ctx s tr ct w,
    (forecast_ok_iff fexp fsqrt hist model ctx _).mpr ⟨s, tr, ct, w, hs, htr, hct, hw, rfl⟩⟩

/-- Witness for the amended C1 on a nested, well-shaped context. -/
theorem claim_C1_no_raise_on_wellshaped_witness :
    ∃ r, forecast_outcomes id id Option.none Option.none
      [("sentiment", PyVal.dict [("sentiment_score", PyVal.float 0.3), ("weight", PyVal.float 0.5)]),
       ("trending", PyVal.dict [("score", PyVal.float 0.2)]),
       ("comment_turnout_trend", PyVal.float 0.1)] = .ok r :=
  claim_C1_no_raise_on_wellshaped id id Option.none Option.none _ (by with_unfolding_all decide)

/-! ## Claim C5 -/

/-- Counterexample to claim C5: with
`context = {sentiment: {sentiment_score: 0.0, score: 0.7}}` the code
extracts `0.7` (Python's `or` treats the earlier `0.0` as absent), while the
claimed precedence chain yields `0.0`. -/
theorem claim_C5_counterexample :
    sentimentOf [("sentiment", PyVal.dict
        [("sentiment_score", PyVal.float 0), ("score", PyVal.float 0.7)])] = .ok 0.7 ∧
    sentimentSpec [("sentiment", PyVal.dict
        [("sentiment_score", PyVal.float 0), ("score", PyVal.float 0.7)])] = 0 ∧
    (0.7 : ℚ) ≠ 0 := by
  with_unfolding_all decide

/-- Claim C5, amended: on contexts whose sentiment spots are floats or
absent, the extracted sentiment follows the precedence chain except that
(a) a numeric `context.sentiment` is itself used, and (b) inside a nested
sentiment dict a `0.0` at `sentiment_score` falls through to `score`
(Python `or`), with `0.0` as the final default. -/
theorem claim_C5_sentiment_precedence (ctx : Ctx) (h : GoodSentCtx ctx = true) :
    sentimentOf ctx = .ok (sentimentAmended ctx) := by
  unfold GoodSentCtx at h
  rw [Bool.and_eq_true] at h
  obtain ⟨h1, h2⟩ := h
  unfold sentimentOf sentimentRaw sentimentAmended
  cases hv : ctxGet ctx "sentiment_score" with
  | float q =>
    by_cases hq : q = 0 <;> simp [pyOr, pyTruthy, hq, pyFloat]
  | none =>
    cases hw : ctxGet ctx "sentiment" with
    | dict d =>
      rw [hw] at h2
      rw [Bool.and_eq_true] at h2
      obtain ⟨ha, hb⟩ := h2
      cases hA : dGet d "sentiment_score" with
      | float q =>
        by_cases hq : q = 0
        · subst hq
          cases hB : dGet d "score" with
          | float q2 => by_cases hq2 : q2 = 0 <;>
              simp [pyOr, pyTruthy, hA, hB, hq2, pyFloat]
          | none => simp [pyOr, pyTruthy, hA, hB, pyFloat]
          | bool b => rw [hB] at hb; simp [floatOrAbsent] at hb
          | int n => rw [hB] at hb; simp [floatOrAbsent] at hb
          | str s => rw [hB] at hb; simp [floatOrAbsent] at hb
          | list l => rw [hB] at hb; simp [floatOrAbsent] at hb
          | dict d2 => rw [hB] at hb; simp [floatOrAbsent] at hb
        · simp [pyOr, pyTruthy, hA, hq, pyFloat]
      | none =>
        cases hB : dGet d "score" with
        | float q2 => by_cases hq2 : q2 = 0 <;>
            simp [pyOr, pyTruthy, hA, hB, hq2, pyFloat]
        | none => simp [pyOr, pyTruthy, hA, hB, pyFloat]
        | bool b => rw [hB] at hb; simp [floatOrAbsent] at hb
        | int n => rw [hB] at hb; simp [floatOrAbsent] at hb
        | str s => rw [hB] at hb; simp [floatOrAbsent] at hb
        | list l => rw [hB] at hb; simp [floatOrAbsent] at hb
        | dict d2 => rw [hB] at hb; simp [floatOrAbsent] at hb
      | bool b => rw [hA] at ha; simp [floatOrAbsent] at ha
      | int n => rw [hA] at ha; simp [floatOrAbsent] at ha
      | str s => rw [hA] at ha; simp [floatOrAbsent] at ha
      | list l => rw [hA] at ha; simp [floatOrAbsent] at ha
      | dict d2 => rw [hA] at ha; simp [floatOrAbsent] at ha
    | float q =>
      by_cases hq : q = 0 <;> simp [pyOr, pyTruthy, hq, pyFloat]
    | none => simp [pyOr, pyTruthy, pyFloat]
    | bool b => rw [hw] at h2; simp [floatOrAbsent] at h2
    | int n => rw [hw] at h2; simp [floatOrAbsent] at h2
    | str s => rw [hw] at h2; simp [floatOrAbsent] at h2
    | list l => rw [hw] at h2; simp [floatOrAbsent] at h2
  | bool b => rw [hv] at h1; simp [floatOrAbsent] at h1
  | int n => rw [hv] at h1; simp [floatOrAbsent] at h1
  | str s => rw [hv] at h1; simp [floatOrAbsent] at h1
  | list l => rw [hv] at h1; simp [floatOrAbsent] at h1
  | dict d => rw [hv] at h1; simp [floatOrAbsent] at h1

/-- Witness for the amended C5: a context carrying a top-level `0.0`
sentiment score is extracted as `0.0`. -/
theorem claim_C5_sentiment_precedence_witness :
    sentimentOf [("sentiment_score", PyVal.float 0),
                 ("sentiment", PyVal.dict [("score", PyVal.float 0.7)])] =
      .ok (sentimentAmended [("sentiment_score", PyVal.float 0),
                             ("sentiment", PyVal.dict [("score", PyVal.float 0.7)])]) :=
  claim_C5_sentiment_precedence _ (by with_unfolding_all decide)

/-! ## Claim C8 -/

theorem clamp01Cal_eq (x : ℚ) : Calib.clamp01Cal x = clamp01 x := by
  unfold Calib.clamp01Cal clamp01 qmax qmin
  split_ifs <;> linarith

/-- Claim C8: for every probability `p` and every source, a linear
calibration config resolving to `m = 1.0`, `c = 0.0` with no applicable
source override returns exactly `clamp(p, 0, 1)`. -/
theorem claim_C8_identity_calibration (p : ℚ) (source : Option String)
    (cal : Calib.Config)
    (htyp : pyLower (cal.type.getD "linear") = "linear")
    (hm : cal.m.getD 1 = 1) (hc : cal.c.getD 0 = 0)
    (hov : ∀ s ovs, source = some s → cal.source_overrides = some ovs →
        s ≠ "" → List.lookup (pyLower s) ovs = Option.none) :
    Calib.apply_calibration p source (some cal) = clamp01 p := by
  unfold Calib.apply_calibration
  cases source with
  | none =>
    cases hso : cal.source_overrides <;>
      simp [htyp, hm, hc, hso, clamp01Cal_eq]
  | some s =>
    cases hso : cal.source_overrides with
    | none => simp [htyp, hm, hc, hso, clamp01Cal_eq]
    | some ovs =>
      by_cases hs : s = ""
      · subst hs; simp [htyp, hm, hc, hso, clamp01Cal_eq]
      · have hl := hov s ovs rfl hso hs
        simp [htyp, hm, hc, hso, hl, hs, clamp01Cal_eq]

/-- Witness for C8: the identity config applied to `p = 1.4` from source
"forum" clamps to `1`. -/
theorem claim_C8_identity_calibration_witness :
    Calib.apply_calibration 1.4 (some "forum")
      (some { type := some "linear", m := some 1, c := some 0,
              source_overrides := Option.none, points := Option.none }) = clamp01 1.4 :=
  claim_C8_identity_calibration 1.4 (some "forum") _ (by decide) rfl rfl
    (fun _ _ _ hovs _ => by cases hovs)

/-! ## Claim C6 -/

/-- Claim C6: `train_model` returns `{intercept: 0.0, coefficients: {}}` on
zero records; otherwise it returns `β = lstsq(X, z)` — with `lstsq` the
abstract minimum-norm least-squares solver `numpy.linalg.lstsq(·,·,rcond=None)`
— where `X` is the feature matrix with a leading intercept column of ones and
`z` the log-odds of the executed/not labels clipped to `[1e-6, 1−1e-6]`;
`intercept = β 0` and the named coefficients are `β 1 .. β 6`. -/
theorem claim_C6_train_model (solver : List (List ℚ) → List ℚ → (ℕ → ℚ))
    (log : ℚ → ℚ) (df : Train.GovFrame) (ls : List String)
    (hst : df.status = some ls) (hlen : ls.length = df.nrows) :
    (df.nrows = 0 → Train.train_model solver log df = { intercept := 0, coefficients := [] }) ∧
    (0 < df.nrows → Train.train_model solver log df =
      { intercept := solver (Train.designMatrixSpec df) (Train.targetsSpec log df) 0,
        coefficients := Train.featureNames.enum.map
          (fun pr => (pr.2, solver (Train.designMatrixSpec df) (Train.targetsSpec log df) (pr.1 + 1))) }) := by
  have hy : (Train.yOf df).length = df.nrows := by
    simp [Train.yOf, hst, hlen]
  constructor
  · intro h0
    unfold Train.train_model
    rw [if_pos (by rw [hy]; exact h0)]
  · intro hpos
    unfold Train.train_model
    rw [if_neg (by rw [hy]; omega)]
    unfold Train.targetsSpec Train.designMatrixSpec
    simp only [List.map_map]
    rfl

/-- Witness for C6 on a one-row frame with a constant-zero solver. -/
theorem claim_C6_train_model_witness :
    Train.train_model (fun _ _ _ => (0:ℚ)) id trainSampleFrame =
      { intercept := (fun _ _ _ => (0:ℚ)) (Train.designMatrixSpec trainSampleFrame)
          (Train.targetsSpec id trainSampleFrame) 0,
        coefficients := Train.featureNames.enum.map
          (fun pr => (pr.2, (fun _ _ _ => (0:ℚ)) (Train.designMatrixSpec trainSampleFrame)
            (Train.targetsSpec id trainSampleFrame) (pr.1 + 1))) } :=
  (claim_C6_train_model (fun _ _ _ => (0:ℚ)) id trainSampleFrame ["Executed"] rfl rfl).2
    (by decide)

/-! ## Claim C4 -/

/-- Counterexample to claim C4: (a) with a duplicated actual key `(1, "DAO1")`
the left merge emits two evaluation rows for the single prediction; (b) an
actuals table lacking the expected `actual` column raises `KeyError` instead
of synthesizing null. -/
theorem claim_C4_counterexample :
    (PredEval.compare_predictions loadedSheet (some predSample) (some actualDup)).toOption.map
        List.length = some 2 ∧
    predSample.rows.length = 1 ∧
    (PredEval.compare_predictions loadedSheet (some predSample)
        (some actualNoOutcomeCol)).toOption = Option.none := by
  with_unfolding_all decide

namespace PredEval

theorem contains_iff {l : List String} {a : String} : l.contains a = true ↔ a ∈ l :=
  List.elem_iff

theorem length_filter_le_filter {α : Type} (p q : α → Bool) (l : List α)
    (h : ∀ a, p a = true → q a = true) :
    (l.filter p).length ≤ (l.filter q).length := by
  induction l with
  | nil => simp
  | cons x xs ih =>
    rw [List.filter_cons, List.filter_cons]
    by_cases hp : p x = true
    · rw [if_pos hp, if_pos (h x hp)]
      simpa using ih
    · rw [if_neg hp]
      split
      · exact le_trans ih (Nat.le_succ _)
      · exact ih

theorem filter_zip_fst_length {α β : Type} (q : α → Bool) (l : List α) (v : List β) :
    ((l.zip v).filter (fun rv => q rv.1)).length ≤ (l.filter q).length := by
  induction l generalizing v with
  | nil => simp
  | cons x xs ih =>
    cases v with
    | nil => simp
    | cons y ys =>
      rw [List.zip_cons_cons, List.filter_cons, List.filter_cons]
      by_cases hq : q x = true
      · rw [if_pos hq, if_pos hq]
        simpa using ih ys
      · rw [if_neg hq, if_neg hq]
        exact ih ys

theorem length_flatMap_of_one {α β : Type} (g : α → List β) (l : List α)
    (h : ∀ a ∈ l, (g a).length = 1) : (l.flatMap g).length = l.length := by
  induction l with
  | nil => rfl
  | cons x xs ih =>
    rw [List.flatMap_cons, List.length_append, h x (List.mem_cons_self x xs),
      ih (fun a ha => h a (List.mem_cons_of_mem _ ha))]
    simp [Nat.add_comm]

theorem mergeLeft_isOk_cols (l r : DF) (keys : List String)
    (hl : keys.all (fun c => l.cols.contains c) = true)
    (hr : keys.all (fun c => r.cols.contains c) = true) :
    ∃ m, mergeLeft l r keys = .ok m ∧
      m.cols = l.cols ++ r.cols.filter (fun c => !(keys.contains c)) := by
  unfold mergeLeft
  rw [if_pos ⟨hl, hr⟩]
  exact ⟨_, rfl, rfl⟩

theorem mergeLeft_length (l r : DF) (keys : List String) (m : DF)
    (hm : mergeLeft l r keys = .ok m)
    (hu : ∀ lr ∈ l.rows,
        (r.rows.filter (fun rr =>
          keys.all (fun k => cellEq (rowGet lr k) (rowGet rr k)))).length ≤ 1) :
    m.rows.length = l.rows.length := by
  unfold mergeLeft at hm
  split at hm
  case isTrue hcond =>
    cases hm
    apply length_flatMap_of_one
    intro lr hlr
    cases hms : r.rows.filter (fun rr =>
        keys.all (fun k => cellEq (rowGet lr k) (rowGet rr k))) with
    | nil => simp [hms]
    | cons a as =>
      have h1 := hu lr hlr
      rw [hms] at h1
      simp only [List.length_cons] at h1
      have h2 : as.length = 0 := by omega
      simp [hms, h2]
  case isFalse => cases hm

theorem selectCols_ok (df : DF) (cs : List String)
    (h : cs.all (fun c => df.cols.contains c) = true) :
    selectCols df cs = .ok
      { cols := cs, rows := df.rows.map (fun r => cs.map (fun c => (c, rowGet r c))) } := by
  unfold selectCols
  rw [if_pos h]

theorem setColVals_length (df : DF) (c : String) (vs : List Cell)
    (h : vs.length = df.rows.length) :
    (setColVals df c vs).rows.length = df.rows.length := by
  unfold setColVals
  split <;> simp [List.length_zip, h]

theorem setColScalar_length (df : DF) (c : String) (v : Cell) :
    (setColScalar df c v).rows.length = df.rows.length :=
  setColVals_length _ _ _ (List.length_replicate _ _)

theorem setColVals_contains_self (df : DF) (c : String) (vs : List Cell) :
    (setColVals df c vs).cols.contains c = true := by
  unfold setColVals
  split
  case isTrue h => exact h
  case isFalse h =>
    rw [contains_iff]
    simp

theorem setColVals_contains_mono (df : DF) (c : String) (vs : List Cell)
    (c' : String) (h : df.cols.contains c' = true) :
    (setColVals df c vs).cols.contains c' = true := by
  unfold setColVals
  rw [contains_iff] at h
  split
  · rwa [contains_iff]
  · rw [contains_iff]
    exact List.mem_append_left _ h

theorem setColScalar_contains_self (df : DF) (c : String) (v : Cell) :
    (setColScalar df c v).cols.contains c = true :=
  setColVals_contains_self _ _ _

theorem setColScalar_contains_mono (df : DF) (c : String) (v : Cell)
    (c' : String) (h : df.cols.contains c' = true) :
    (setColScalar df c v).cols.contains c' = true :=
  setColVals_contains_mono _ _ _ _ h

theorem rowGet_overwrite_ne (r : List (String × Cell)) (c c' : String) (v : Cell)
    (h : c' ≠ c) :
    rowGet (r.map (fun kv => if kv.1 = c then (kv.1, v) else kv)) c' = rowGet r c' := by
  induction r with
  | nil => rfl
  | cons kv r ih =>
    unfold rowGet at ih ⊢
    by_cases hk : kv.1 = c
    · rw [List.map_cons, if_pos hk]
      rw [List.lookup, List.lookup]
      have hne : (c' == kv.1) = false := by
        rw [beq_eq_false_iff_ne]
        rw [hk]; exact h
      rw [hne]
      exact ih
    · rw [List.map_cons, if_neg hk]
      rw [List.lookup, List.lookup]
      cases hbe : c' == kv.1
      · exact ih
      · rfl

theorem rowGet_append_single_ne (r : List (String × Cell)) (c c' : String) (v : Cell)
    (h : c' ≠ c) :
    rowGet (r ++ [(c, v)]) c' = rowGet r c' := by
  unfold rowGet
  rw [List.lookup_append]
  cases hl : List.lookup c' r
  · have hne : (c' == c) = false := by rwa [beq_eq_false_iff_ne]
    simp [List.lookup, hne]
  · rfl

theorem filter_setColVals_le (df : DF) (c : String) (vs : List Cell)
    (q : Cell → Bool) (c' : String) (hne : c' ≠ c) :
    ((setColVals df c vs).rows.filter (fun r => q (rowGet r c'))).length ≤
      (df.rows.filter (fun r => q (rowGet r c'))).length := by
  unfold setColVals
  split
  · have he : (fun (rv : List (String × Cell) × Cell) =>
        q (rowGet (rv.1.map (fun kv => if kv.1 = c then (kv.1, rv.2) else kv)) c')) =
        (fun rv => q (rowGet rv.1 c')) := by
      funext rv
      rw [rowGet_overwrite_ne _ _ _ _ hne]
    calc ((df.rows.zip vs).map (fun rv =>
            rv.1.map (fun kv => if kv.1 = c then (kv.1, rv.2) else kv)) |>.filter
              (fun r => q (rowGet r c'))).length
        = ((df.rows.zip vs).filter (fun rv =>
            q (rowGet (rv.1.map (fun kv => if kv.1 = c then (kv.1, rv.2) else kv)) c'))).length := by
          rw [List.filter_map, List.length_map]
          rfl
      _ = ((df.rows.zip vs).filter (fun rv => q (rowGet rv.1 c'))).length := by rw [he]
      _ ≤ (df.rows.filter (fun r => q (rowGet r c'))).length :=
          filter_zip_fst_length (fun r => q (rowGet r c')) df.rows vs
  · have he : (fun (rv : List (String × Cell) × Cell) =>
        q (rowGet (rv.1 ++ [(c, rv.2)]) c')) = (fun rv => q (rowGet rv.1 c')) := by
      funext rv
      rw [rowGet_append_single_ne _ _ _ _ hne]
    calc ((df.rows.zip vs).map (fun rv => rv.1 ++ [(c, rv.2)]) |>.filter
              (fun r => q (rowGet r c'))).length
        = ((df.rows.zip vs).filter (fun rv => q (rowGet (rv.1 ++ [(c, rv.2)]) c'))).length := by
          rw [List.filter_map, List.length_map]
          rfl
      _ = ((df.rows.zip vs).filter (fun rv => q (rowGet rv.1 c'))).length := by rw [he]
      _ ≤ (df.rows.filter (fun r => q (rowGet r c'))).length :=
          filter_zip_fst_length (fun r => q (rowGet r c')) df.rows vs

end PredEval

namespace PredEval

theorem ensure_length (cs : List String) (df : DF) :
    (cs.foldl (fun df c => if df.cols.contains c then df else setColScalar df c Cell.na)
        df).rows.length = df.rows.length := by
  induction cs generalizing df with
  | nil => rfl
  | cons c cs ih =>
    rw [List.foldl_cons, ih]
    split
    · rfl
    · exact setColScalar_length _ _ _

theorem ensure_contains_mono (cs : List String) (df : DF) (c' : String)
    (h : df.cols.contains c' = true) :
    (cs.foldl (fun df c => if df.cols.contains c then df else setColScalar df c Cell.na)
        df).cols.contains c' = true := by
  induction cs generalizing df with
  | nil => exact h
  | cons c cs ih =>
    rw [List.foldl_cons]
    apply ih
    split
    · exact h
    · exact setColScalar_contains_mono _ _ _ _ h

theorem ensure_contains_of_mem (cs : List String) (df : DF) (c : String) (hc : c ∈ cs) :
    (cs.foldl (fun df c => if df.cols.contains c then df else setColScalar df c Cell.na)
        df).cols.contains c = true := by
  induction cs generalizing df with
  | nil => cases hc
  | cons c0 cs ih =>
    rw [List.foldl_cons]
    rcases List.mem_cons.mp hc with h | h
    · subst h
      apply ensure_contains_mono
      split
      case isTrue hh => exact hh
      case isFalse => exact setColScalar_contains_self _ _ _
    · exact ih _ h

theorem renameCols_length (df : DF) : (renameCols df).rows.length = df.rows.length := by
  simp [renameCols]

theorem renameCols_contains (df : DF) (c : String) (h : df.cols.contains c = true) :
    (renameCols df).cols.contains ((List.lookup c columnMap).getD c) = true := by
  rw [contains_iff] at h ⊢
  exact List.mem_map.mpr ⟨c, h, rfl⟩

theorem normaliseColumns_length (df : DF) :
    (normaliseColumns df).rows.length = df.rows.length := by
  simp [normaliseColumns]

theorem rowGet_proj (cs : List String) (r : List (String × Cell)) (c : String)
    (hc : c ∈ cs) :
    rowGet (cs.map (fun c' => (c', rowGet r c'))) c = rowGet r c := by
  induction cs with
  | nil => cases hc
  | cons c0 cs ih =>
    rw [List.map_cons]
    by_cases hce : c = c0
    · subst hce
      simp [rowGet, List.lookup]
    · have hbe : (c == c0) = false := by rwa [beq_eq_false_iff_ne]
      simp only [rowGet, List.lookup, hbe]
      exact ih (by
        rcases List.mem_cons.mp hc with h | h
        · exact absurd h hce
        · exact h)

theorem proj_keys (cs : List String) (r : List (String × Cell)) :
    (cs.map (fun c => (c, rowGet r c))).map Prod.fst = cs := by
  rw [List.map_map]
  show cs.map (fun c => c) = cs
  exact List.map_id' cs

theorem uniq_level1 (A : DF)
    (hu : ∀ x : Cell,
        ((A.rows.filter (fun rr => cellEq x (rowGet rr "proposal_id"))).length ≤ 1))
    (lr : List (String × Cell)) :
    ((A.rows.map (fun r =>
        ["proposal_id", "dao", "actual"].map (fun c => (c, rowGet r c)))).filter
          (fun rr => ["proposal_id", "dao"].all
            (fun k => cellEq (rowGet lr k) (rowGet rr k)))).length ≤ 1 := by
  refine le_trans (length_filter_le_filter _
      (fun rr => cellEq (rowGet lr "proposal_id") (rowGet rr "proposal_id")) _
      (fun rr h => by
        simp only [List.all_cons, List.all_nil, Bool.and_eq_true] at h
        exact h.1)) ?_
  rw [List.filter_map, List.length_map]
  have he : ((fun rr => cellEq (rowGet lr "proposal_id") (rowGet rr "proposal_id")) ∘
      (fun r => ["proposal_id", "dao", "actual"].map (fun c => (c, rowGet r c)))) =
      (fun r => cellEq (rowGet lr "proposal_id") (rowGet r "proposal_id")) := by
    funext r
    show cellEq (rowGet lr "proposal_id")
        (rowGet (["proposal_id", "dao", "actual"].map (fun c => (c, rowGet r c))) "proposal_id") = _
    rw [rowGet_proj _ _ _ (by simp)]
  rw [he]
  exact hu _

theorem uniq_level2 (A : DF) (vals : List Cell)
    (hu : ∀ x : Cell,
        ((A.rows.filter (fun rr => cellEq x (rowGet rr "proposal_id"))).length ≤ 1))
    (lr : List (String × Cell)) :
    (((setColVals A "dao_key" vals).rows.map (fun r =>
        ["proposal_id", "dao_key", "actual"].map (fun c => (c, rowGet r c)))).filter
          (fun rr => ["proposal_id", "dao_key"].all
            (fun k => cellEq (rowGet lr k) (rowGet rr k)))).length ≤ 1 := by
  refine le_trans (length_filter_le_filter _
      (fun rr => cellEq (rowGet lr "proposal_id") (rowGet rr "proposal_id")) _
      (fun rr h => by
        simp only [List.all_cons, List.all_nil, Bool.and_eq_true] at h
        exact h.1)) ?_
  rw [List.filter_map, List.length_map]
  have he : ((fun rr => cellEq (rowGet lr "proposal_id") (rowGet rr "proposal_id")) ∘
      (fun r => ["proposal_id", "dao_key", "actual"].map (fun c => (c, rowGet r c)))) =
      (fun r => cellEq (rowGet lr "proposal_id") (rowGet r "proposal_id")) := by
    funext r
    show cellEq (rowGet lr "proposal_id")
        (rowGet (["proposal_id", "dao_key", "actual"].map (fun c => (c, rowGet r c))) "proposal_id") = _
    rw [rowGet_proj _ _ _ (by simp)]
  rw [he]
  refine le_trans (filter_setColVals_le A "dao_key" vals
      (fun v => cellEq (rowGet lr "proposal_id") v) "proposal_id" (by decide)) ?_
  exact hu _

theorem uniq_level3 (A : DF)
    (hu : ∀ x : Cell,
        ((A.rows.filter (fun rr => cellEq x (rowGet rr "proposal_id"))).length ≤ 1))
    (lr : List (String × Cell)) :
    ((A.rows.map (fun r =>
        ["proposal_id", "actual"].map (fun c => (c, rowGet r c)))).filter
          (fun rr => ["proposal_id"].all
            (fun k => cellEq (rowGet lr k) (rowGet rr k)))).length ≤ 1 := by
  refine le_trans (length_filter_le_filter _
      (fun rr => cellEq (rowGet lr "proposal_id") (rowGet rr "proposal_id")) _
      (fun rr h => by
        simp only [List.all_cons, List.all_nil, Bool.and_eq_true] at h
        exact h.1)) ?_
  rw [List.filter_map, List.length_map]
  have he : ((fun rr => cellEq (rowGet lr "proposal_id") (rowGet rr "proposal_id")) ∘
      (fun r => ["proposal_id", "actual"].map (fun c => (c, rowGet r c)))) =
      (fun r => cellEq (rowGet lr "proposal_id") (rowGet r "proposal_id")) := by
    funext r
    show cellEq (rowGet lr "proposal_id")
        (rowGet (["proposal_id", "actual"].map (fun c => (c, rowGet r c))) "proposal_id") = _
    rw [rowGet_proj _ _ _ (by simp)]
  rw [he]
  exact hu _

end PredEval


namespace PredEval

theorem except_bind_ok {ε α β : Type} (a : α) (f : α → Except ε β) :
    (Except.ok a : Except ε α) >>= f = f a := rfl

theorem except_pure_eq {ε α : Type} (a : α) :
    (pure a : Except ε α) = Except.ok a := rfl

theorem all_contains₁ {cols : List String} {a : String}
    (ha : cols.contains a = true) :
    [a].all (fun x => cols.contains x) = true := by
  simp only [List.all_cons, List.all_nil, ha]; rfl

theorem all_contains₂ {cols : List String} {a b : String}
    (ha : cols.contains a = true) (hb : cols.contains b = true) :
    [a, b].all (fun x => cols.contains x) = true := by
  simp only [List.all_cons, List.all_nil, ha, hb]; rfl

theorem all_contains₃ {cols : List String} {a b c : String}
    (ha : cols.contains a = true) (hb : cols.contains b = true)
    (hc : cols.contains c = true) :
    [a, b, c].all (fun x => cols.contains x) = true := by
  simp only [List.all_cons, List.all_nil, ha, hb, hc]; rfl

theorem all_contains_mk (cols : List String) (rows : List (List (String × Cell)))
    (keys : List String) (h : keys.all (fun c => cols.contains c) = true) :
    keys.all (fun c => (DF.mk cols rows).cols.contains c) = true := h

theorem compare_predictions_some (loaded dp da : DF) :
    compare_predictions loaded (some dp) (some da) =
      (let dfA : DF := if da.rows.isEmpty then loaded else da
       if dp.rows.isEmpty ∨ dfA.rows.isEmpty then pure [] else do
        let pred := normaliseColumns dp
        let actual := normaliseColumns dfA
        let actSel ← selectCols actual ["proposal_id", "dao", "actual"]
        let merged0 ← mergeLeft pred actSel ["proposal_id", "dao"]
        let merged1 ← if isnaAll merged0 "actual" then level2Frame pred actual else pure merged0
        let merged2 ← if isnaAll merged1 "actual" then level3Frame pred actual else pure merged1
        finalizeEval merged2) := rfl

theorem finalizeEval_ok (m2 : DF) :
    ∃ out, finalizeEval m2 = .ok out ∧ out.length = m2.rows.length ∧
      ∀ r ∈ out, r.map Prod.fst = outCols := by
  have key : ∀ c ∈ expectedCols, (renameCols (List.foldl
      (fun df c => if df.cols.contains c = true then df else setColScalar df c Cell.na)
      m2 expectedCols)).cols.contains ((List.lookup c columnMap).getD c) = true :=
    fun c hc => renameCols_contains _ c (ensure_contains_of_mem expectedCols m2 c hc)
  have hall : outCols.all (fun c =>
      (renameCols (List.foldl
        (fun df c => if df.cols.contains c = true then df else setColScalar df c Cell.na)
        m2 expectedCols)).cols.contains c) = true := by
    simp only [outCols, List.all_cons, List.all_nil, Bool.and_eq_true]
    refine ⟨?_, ?_, ?_, ?_, ?_, ?_, ?_, trivial⟩
    · have h := key "proposal_id" (by decide)
      rw [show (List.lookup "proposal_id" columnMap).getD "proposal_id" = "Proposal ID"
        from by decide] at h
      exact h
    · have h := key "dao" (by decide)
      rw [show (List.lookup "dao" columnMap).getD "dao" = "DAO" from by decide] at h
      exact h
    · have h := key "predicted" (by decide)
      rw [show (List.lookup "predicted" columnMap).getD "predicted" = "Predicted"
        from by decide] at h
      exact h
    · have h := key "actual" (by decide)
      rw [show (List.lookup "actual" columnMap).getD "actual" = "Actual" from by decide] at h
      exact h
    · have h := key "confidence" (by decide)
      rw [show (List.lookup "confidence" columnMap).getD "confidence" = "Confidence"
        from by decide] at h
      exact h
    · have h := key "prediction_time" (by decide)
      rw [show (List.lookup "prediction_time" columnMap).getD "prediction_time"
          = "Prediction Time" from by decide] at h
      exact h
    · have h := key "margin_of_error" (by decide)
      rw [show (List.lookup "margin_of_error" columnMap).getD "margin_of_error"
          = "Margin of Error" from by decide] at h
      exact h
  simp only [finalizeEval]
  rw [selectCols_ok _ _ hall]
  simp only [except_bind_ok, except_pure_eq]
  refine ⟨_, rfl, ?_, ?_⟩
  · simp only [List.length_map]
    rw [renameCols_length, ensure_length]
  · intro r hr
    simp only [List.mem_map] at hr
    obtain ⟨r0, _, rfl⟩ := hr
    exact proj_keys _ _

theorem level2Frame_ok (P A : DF)
    (hppid : P.cols.contains "proposal_id" = true)
    (hpdao : P.cols.contains "dao" = true)
    (hapid : A.cols.contains "proposal_id" = true)
    (hadao : A.cols.contains "dao" = true)
    (haact : A.cols.contains "actual" = true)
    (huniq : ∀ x : Cell,
        ((A.rows.filter (fun rr => cellEq x (rowGet rr "proposal_id"))).length ≤ 1)) :
    ∃ m1, level2Frame P A = .ok m1 ∧ m1.rows.length = P.rows.length := by
  simp only [level2Frame]
  rw [if_pos hpdao, if_pos hadao]
  rw [selectCols_ok _ _ (all_contains₃
    (setColVals_contains_mono A "dao_key"
      (A.rows.map (fun r => Cell.str (canon (rowGet r "dao")))) "proposal_id" hapid)
    (setColVals_contains_self A "dao_key"
      (A.rows.map (fun r => Cell.str (canon (rowGet r "dao")))))
    (setColVals_contains_mono A "dao_key"
      (A.rows.map (fun r => Cell.str (canon (rowGet r "dao")))) "actual" haact))]
  simp only [except_bind_ok]
  obtain ⟨m, hm, hmcols⟩ := mergeLeft_isOk_cols
      (setColVals P "dao_key" (P.rows.map (fun r => Cell.str (canon (rowGet r "dao")))))
      ⟨["proposal_id", "dao_key", "actual"],
        (setColVals A "dao_key" (A.rows.map (fun r => Cell.str (canon (rowGet r "dao"))))).rows.map
          (fun r => ["proposal_id", "dao_key", "actual"].map (fun c => (c, rowGet r c)))⟩
      ["proposal_id", "dao_key"]
      (all_contains₂
        (setColVals_contains_mono P "dao_key"
          (P.rows.map (fun r => Cell.str (canon (rowGet r "dao")))) "proposal_id" hppid)
        (setColVals_contains_self P "dao_key"
          (P.rows.map (fun r => Cell.str (canon (rowGet r "dao"))))))
      (all_contains_mk _ _ _ (by decide))
  rw [hm]
  simp only [except_bind_ok, except_pure_eq]
  have hmlen : m.rows.length = P.rows.length := by
    have h := mergeLeft_length _ _ _ _ hm (fun lr _ => uniq_level2 A _ huniq lr)
    rw [h, setColVals_length]
    rw [List.length_map]
  have hmdao : m.cols.contains "dao" = true := by
    rw [contains_iff, hmcols]
    apply List.mem_append_left
    rw [← contains_iff]
    exact setColVals_contains_mono _ _ _ _ hpdao
  rw [if_neg (by
    intro hcon
    rw [hmdao] at hcon
    simp at hcon)]
  exact ⟨m, rfl, hmlen⟩

theorem level3Frame_ok (P A : DF)
    (hppid : P.cols.contains "proposal_id" = true)
    (hpdao : P.cols.contains "dao" = true)
    (hapid : A.cols.contains "proposal_id" = true)
    (haact : A.cols.contains "actual" = true)
    (huniq : ∀ x : Cell,
        ((A.rows.filter (fun rr => cellEq x (rowGet rr "proposal_id"))).length ≤ 1)) :
    ∃ m2, level3Frame P A = .ok m2 ∧ m2.rows.length = P.rows.length := by
  simp only [level3Frame]
  rw [selectCols_ok _ _ (all_contains₂ hapid haact)]
  simp only [except_bind_ok]
  obtain ⟨m, hm, hmcols⟩ := mergeLeft_isOk_cols P
      ⟨["proposal_id", "actual"],
        A.rows.map (fun r => ["proposal_id", "actual"].map (fun c => (c, rowGet r c)))⟩
      ["proposal_id"]
      (all_contains₁ hppid)
      (all_contains_mk _ _ _ (by decide))
  rw [hm]
  simp only [except_bind_ok, except_pure_eq]
  have hmlen : m.rows.length = P.rows.length :=
    mergeLeft_length _ _ _ _ hm (fun lr _ => uniq_level3 A huniq lr)
  have hmdao : m.cols.contains "dao" = true := by
    rw [contains_iff, hmcols]
    apply List.mem_append_left
    rw [← contains_iff]
    exact hpdao
  rw [if_neg (by
    intro hcon
    rw [hmdao] at hcon
    simp at hcon)]
  exact ⟨m, rfl, hmlen⟩

theorem except_pure_bind_if_neg {ε α β : Type} (a : α) (c : α → Prop) [DecidablePred c]
    (t : Except ε β) (k : α → Except ε β) (h : ¬ c a) :
    ((pure a : Except ε α) >>= fun x => if c x then t else (pure x : Except ε α) >>= k)
      = k a := by
  show (if c a then t else (pure a : Except ε α) >>= k) = k a
  rw [if_neg h]
  rfl

end PredEval

set_option maxHeartbeats 1000000 in
/-- Claim C4, amended: when both tables are non-empty, the (normalised)
predictions carry `proposal_id` and `dao` columns and no `actual` column,
the (normalised) actuals carry `proposal_id`, `dao` and `actual` columns,
and each `proposal_id` key matches at most one actual row,
`compare_predictions` returns exactly one evaluation row per input
prediction — even when no actual outcome is found (Actual stays null) —
and every missing expected column among
predicted/confidence/prediction_time/margin_of_error is synthesized as
null: each output row carries exactly the seven display columns.  Without
the key-uniqueness hypothesis a duplicated actual key duplicates output
rows, and a missing required column raises `KeyError`
(`claim_C4_counterexample`). -/
theorem claim_C4_one_row_per_prediction
    (loaded pred act : PredEval.DF)
    (hpn : pred.rows ≠ []) (han : act.rows ≠ [])
    (hppid : (PredEval.normaliseColumns pred).cols.contains "proposal_id" = true)
    (hpdao : (PredEval.normaliseColumns pred).cols.contains "dao" = true)
    (hapid : (PredEval.normaliseColumns act).cols.contains "proposal_id" = true)
    (hadao : (PredEval.normaliseColumns act).cols.contains "dao" = true)
    (haact : (PredEval.normaliseColumns act).cols.contains "actual" = true)
    (hpact : (PredEval.normaliseColumns pred).cols.contains "actual" = false)
    (huniq : ∀ x : PredEval.Cell,
        ((PredEval.normaliseColumns act).rows.filter
            (fun rr => PredEval.cellEq x (PredEval.rowGet rr "proposal_id"))).length ≤ 1) :
    ∃ out, PredEval.compare_predictions loaded (some pred) (some act) = .ok out ∧
      out.length = pred.rows.length ∧
      ∀ r ∈ out, r.map Prod.fst = PredEval.outCols := by
  have hae : act.rows.isEmpty = false := by
    rw [List.isEmpty_eq_false]; exact han
  have hpe : pred.rows.isEmpty = false := by
    rw [List.isEmpty_eq_false]; exact hpn
  rw [PredEval.compare_predictions_some]
  simp only [hae, hpe, Bool.false_eq_true, if_false, or_self]
  set P := PredEval.normaliseColumns pred with hPdef
  set A := PredEval.normaliseColumns act with hAdef
  have hPlen : P.rows.length = pred.rows.length := PredEval.normaliseColumns_length pred
  rw [PredEval.selectCols_ok A ["proposal_id", "dao", "actual"]
    (PredEval.all_contains₃ hapid hadao haact)]
  simp only [PredEval.except_bind_ok]
  obtain ⟨m0, hm0, hm0cols⟩ := PredEval.mergeLeft_isOk_cols P
      ⟨["proposal_id", "dao", "actual"],
        A.rows.map (fun r => ["proposal_id", "dao", "actual"].map
          (fun c => (c, PredEval.rowGet r c)))⟩
      ["proposal_id", "dao"]
      (PredEval.all_contains₂ hppid hpdao)
      (PredEval.all_contains_mk _ _ _ (by decide))
  rw [hm0]
  simp only [PredEval.except_bind_ok]
  have hm0len : m0.rows.length = P.rows.length :=
    PredEval.mergeLeft_length _ _ _ _ hm0 (fun lr _ => PredEval.uniq_level1 A huniq lr)
  obtain ⟨m1, hl2, hm1len⟩ :=
    PredEval.level2Frame_ok P A hppid hpdao hapid hadao haact huniq
  obtain ⟨m2, hl3, hm2len⟩ :=
    PredEval.level3Frame_ok P A hppid hpdao hapid haact huniq
  by_cases hna0 : PredEval.isnaAll m0 "actual" = true
  · rw [if_pos hna0, hl2]
    simp only [PredEval.except_bind_ok]
    by_cases hna1 : PredEval.isnaAll m1 "actual" = true
    · rw [if_pos hna1, hl3]
      simp only [PredEval.except_bind_ok]
      obtain ⟨out, hfin, hflen, hfkeys⟩ := PredEval.finalizeEval_ok m2
      refine ⟨out, hfin, ?_, hfkeys⟩
      rw [hflen, hm2len, hPlen]
    · rw [if_neg hna1]
      simp only [PredEval.except_pure_eq, PredEval.except_bind_ok]
      obtain ⟨out, hfin, hflen, hfkeys⟩ := PredEval.finalizeEval_ok m1
      refine ⟨out, hfin, ?_, hfkeys⟩
      rw [hflen, hm1len, hPlen]
  · rw [if_neg hna0]
    rw [PredEval.except_pure_bind_if_neg m0 (fun x => PredEval.isnaAll x "actual" = true)
      (PredEval.level3Frame P A >>= fun merged2 => PredEval.finalizeEval merged2)
      (fun merged2 => PredEval.finalizeEval merged2) hna0]
    obtain ⟨out, hfin, hflen, hfkeys⟩ := PredEval.finalizeEval_ok m0
    refine ⟨out, hfin, ?_, hfkeys⟩
    rw [hflen, hm0len, hPlen]

/-- Witness for the amended C4: the repository's own test shape — one
prediction row joined against one uniquely-keyed actual row. -/
theorem claim_C4_one_row_per_prediction_witness :
    ∃ out, PredEval.compare_predictions loadedSheet (some predSample) (some actualSample)
        = .ok out ∧
      out.length = predSample.rows.length ∧
      ∀ r ∈ out, r.map Prod.fst = PredEval.outCols :=
  claim_C4_one_row_per_prediction loadedSheet predSample actualSample
    (by decide) (by decide) (by decide) (by decide) (by decide) (by decide)
    (by decide) (by decide)
    (fun x => by
      have h := List.length_filter_le
        (fun rr => PredEval.cellEq x (PredEval.rowGet rr "proposal_id"))
        (PredEval.normaliseColumns actualSample).rows
      have hlen : (PredEval.normaliseColumns actualSample).rows.length = 1 := by decide
      omega)
